import Mathlib

/-!
Verification development for the room-acoustics core of
`sonic-room-explorer` (`src/utils/roomModeCalculations.ts`).

The TypeScript source is shallowly embedded over `ℝ`: JavaScript numbers
become real numbers, arrays become lists, and the process-wide memoization
cache becomes explicit state threading with an explicit heap so that the
aliasing behaviour of `Map`-stored arrays is observable.  JavaScript's
`Math.round` (round half toward +∞) is modelled by `⌊x + 1/2⌋`.  NaN /
infinity guards in the source are identities over `ℝ` and are noted where
they occur.
-/

noncomputable section

open scoped Classical

/-! ## Data model (`Point`, `RoomDimensions`, `ModeResponse`, EQ types) -/

/-- 3D position in metres (source `interface Point`). -/
structure Point where
  x : ℝ
  y : ℝ
  z : ℝ

/-- Room length/width/height in metres (source `interface RoomDimensions`). -/
structure RoomDimensions where
  L : ℝ
  W : ℝ
  H : ℝ

/-- One point of a frequency response (source `interface ModeResponse`). -/
structure ModeResponse where
  freq : ℝ
  db : ℝ

/-- Filter kind of an EQ band (source union `'peak' | 'highpass' | 'lowpass' | 'shelf'`). -/
inductive FilterType where
  | peak
  | highpass
  | lowpass
  | shelf
deriving DecidableEq

/-- A parametric EQ band (source `interface EQBand`). -/
structure EQBand where
  frequency : ℝ
  gain : ℝ
  q : ℝ
  type : FilterType

/-- EQ settings handed to the filter bank (source `interface EQSettings`). -/
structure EQSettings where
  bands : List EQBand
  enabled : Bool
  maxBoost : ℝ
  maxCut : ℝ
  smoothing : ℝ

/-! ## Numeric helpers -/

/-- JavaScript `Math.round`: round half toward +∞. -/
def jsRound (x : ℝ) : ℝ := (⌊x + 1 / 2⌋ : ℤ)

/-- `Math.round(x * 10) / 10` — quantisation to 0.1 used throughout band generation. -/
def round10 (x : ℝ) : ℝ := jsRound (x * 10) / 10

/-- `Math.round(x * 1000) / 1000` — 3-decimal rounding used by the cache key. -/
def round1000 (x : ℝ) : ℝ := jsRound (x * 1000) / 1000

/-- `Math.round(x * 100) / 100` — 2-decimal rounding used by the cache key. -/
def round100 (x : ℝ) : ℝ := jsRound (x * 100) / 100

/-- JavaScript `Math.atan2(y, x)` on real (non-NaN) arguments. -/
def atan2 (y x : ℝ) : ℝ :=
  if 0 < x then Real.arctan (y / x)
  else if x < 0 ∧ 0 ≤ y then Real.arctan (y / x) + Real.pi
  else if x < 0 ∧ y < 0 then Real.arctan (y / x) - Real.pi
  else if x = 0 ∧ 0 < y then Real.pi / 2
  else if x = 0 ∧ y < 0 then -(Real.pi / 2)
  else 0

/-! ## Constants (top of `roomModeCalculations.ts`) -/

def SPEED_OF_SOUND : ℝ := 343

def DEFAULT_Q_FACTOR : ℝ := 10

def FREQUENCY_MIN_HZ : ℝ := 20

def FREQUENCY_MAX_HZ : ℝ := 300

/-! ## Modal response simulator -/

/-- Source `calculateModePressure`: standing-wave pressure term of mode
`(n,m,l)` at a position, with the deliberate x-axis mirroring
`effectiveX = Lx - x` and `1e-6` epsilon substitution for zero dimensions. -/
def calculateModePressure (n m l : ℕ) (pos : Point) (dim : RoomDimensions) : ℝ :=
  let Lx : ℝ := if dim.L = 0 then 1e-6 else dim.L
  let Wy : ℝ := if dim.W = 0 then 1e-6 else dim.W
  let Hz : ℝ := if dim.H = 0 then 1e-6 else dim.H
  let effectiveX := Lx - pos.x
  Real.cos ((n : ℝ) * Real.pi * effectiveX / Lx) *
    Real.cos ((m : ℝ) * Real.pi * pos.y / Wy) *
    Real.cos ((l : ℝ) * Real.pi * pos.z / Hz)

/-- Tail of one mode's contribution, once the coupling has been computed:
the 2nd-order resonance amplitude/phase and the complex (real, imag)
contribution.  Factored out so that the source/listener symmetry of the
coupling product is an equation about this function's argument. -/
def modeTail (f fMode q coupling : ℝ) : ℝ × ℝ :=
  if |coupling| < 1e-9 then (0, 0)
  else if fMode = 0 ∧ f = 0 then
    (coupling * 1 * Real.cos 0, coupling * 1 * Real.sin 0)
  else if 0 < fMode then
    let fRatio := f / fMode
    let denominatorTerm := fRatio / q
    let modeAmplitudeResponse := 1 / Real.sqrt ((1 - fRatio ^ 2) ^ 2 + denominatorTerm ^ 2)
    let modePhaseResponse := atan2 (-denominatorTerm) (1 - fRatio ^ 2)
    let effectiveMagnitude := coupling * modeAmplitudeResponse
    (effectiveMagnitude * Real.cos modePhaseResponse,
      effectiveMagnitude * Real.sin modePhaseResponse)
  else (0, 0)

/-- One `(n,m,l)` iteration of the triple mode loop inside
`simulateRoomResponse`: every `continue` contributes `(0, 0)`. -/
def modeContribution (subPos listenerPos : Point) (L W H : ℝ) (baseQFactor : ℝ)
    (f : ℝ) (n m l : ℕ) : ℝ × ℝ :=
  if n = 0 ∧ m = 0 ∧ l = 0 ∧ ¬(L = 0 ∧ W = 0 ∧ H = 0) then (0, 0)
  else if L = 0 ∧ n ≠ 0 then (0, 0)
  else if W = 0 ∧ m ≠ 0 then (0, 0)
  else if H = 0 ∧ l ≠ 0 then (0, 0)
  else
    let termL : ℝ := if L = 0 then 0 else (n : ℝ) / L
    let termW : ℝ := if W = 0 then 0 else (m : ℝ) / W
    let termH : ℝ := if H = 0 then 0 else (l : ℝ) / H
    let fMode := SPEED_OF_SOUND / 2 * Real.sqrt (termL ^ 2 + termW ^ 2 + termH ^ 2)
    if fMode = 0 ∧ 0 < f then (0, 0)
    else if (FREQUENCY_MAX_HZ * 1.5 < fMode ∧ 0 < fMode) ∧ (3 < n ∧ 3 < m ∧ 3 < l) then (0, 0)
    else
      let qMultiplier : ℝ :=
        if 0 < fMode ∧ fMode < 80 then 2.0
        else if 80 ≤ fMode ∧ fMode < 150 then 1.5
        else 1.0
      let q := max 1 (baseQFactor * qMultiplier)
      modeTail f fMode q
        (calculateModePressure n m l subPos ⟨L, W, H⟩ *
          calculateModePressure n m l listenerPos ⟨L, W, H⟩)

/-- Complex sum over all modes `0 ≤ n,m,l ≤ maxModeOrder` at frequency `f`. -/
def totalPressure (subPos listenerPos : Point) (L W H : ℝ) (maxModeOrder : ℕ)
    (baseQFactor : ℝ) (f : ℝ) : ℝ × ℝ :=
  ∑ n ∈ Finset.range (maxModeOrder + 1), ∑ m ∈ Finset.range (maxModeOrder + 1),
    ∑ l ∈ Finset.range (maxModeOrder + 1),
      modeContribution subPos listenerPos L W H baseQFactor f n m l

/-- The cache-free computation inside `simulateRoomResponse`: the 20–300 Hz
grid in 1 Hz steps, complex mode summation, magnitude, and dB conversion
floored at −100 dB. -/
def simulateRoomResponseList (subPos listenerPos : Point) (L W H : ℝ)
    (maxModeOrder : ℕ) (baseQFactor : ℝ) : List ModeResponse :=
  (List.range 281).map fun (k : ℕ) =>
    let f : ℝ := FREQUENCY_MIN_HZ + (k : ℝ)
    let t := totalPressure subPos listenerPos L W H maxModeOrder baseQFactor f
    let currentMagnitude := Real.sqrt (t.1 ^ 2 + t.2 ^ 2)
    let dbValue : ℝ :=
      if currentMagnitude ≤ 1e-9 then -100 else 20 * Real.logb 10 currentMagnitude
    ⟨f, max (-100) dbValue⟩

/-! ## Memoization cache (`responseCache`, `generateCacheKey`)

The module-level `Map<string, ModeResponse[]>` stores references to arrays.
We model it with explicit state: a heap of arrays addressed by allocation
index, and an insertion-ordered association list from rounded keys to heap
references.  `JSON.stringify` of the rounded argument record is injective
on the rounded tuples, so the key is modelled as the tuple itself. -/

def CACHE_SIZE_LIMIT : ℕ := 50

/-- The rounded tuple serialized by source `generateCacheKey`. -/
structure CacheKey where
  subX : ℝ
  subY : ℝ
  subZ : ℝ
  lisX : ℝ
  lisY : ℝ
  lisZ : ℝ
  roomL : ℝ
  roomW : ℝ
  roomH : ℝ
  maxModeOrder : ℕ
  baseQFactor : ℝ

/-- Source `generateCacheKey`: 3-decimal rounding of positions/dimensions,
2-decimal rounding of the Q factor. -/
def generateCacheKey (subPos listenerPos : Point) (L W H : ℝ) (maxModeOrder : ℕ)
    (baseQFactor : ℝ) : CacheKey :=
  ⟨round1000 subPos.x, round1000 subPos.y, round1000 subPos.z,
    round1000 listenerPos.x, round1000 listenerPos.y, round1000 listenerPos.z,
    round1000 L, round1000 W, round1000 H, maxModeOrder, round100 baseQFactor⟩

/-- The mutable world surrounding `simulateRoomResponse`: the cache map (in
`Map` insertion order) and the heap of allocated response arrays. -/
structure SimState where
  cache : List (CacheKey × ℕ)
  heap : List (List ModeResponse)

def SimState.empty : SimState := ⟨[], []⟩

/-- Read the array behind a reference (a caller dereferencing the returned
array object). -/
def SimState.deref (st : SimState) (ref : ℕ) : List ModeResponse :=
  (st.heap.get? ref).getD []

/-- In-place mutation of the array behind a reference, as a caller holding
the returned array object could do with `arr[i].db = …` / `arr.length = 0`. -/
def SimState.mutateRef (st : SimState) (ref : ℕ) (newVal : List ModeResponse) : SimState :=
  ⟨st.cache, st.heap.set ref newVal⟩

/-- Source `simulateRoomResponse` with its memoization wrapper: on a hit the
stored reference is returned verbatim; on a miss, when the map has reached
`CACHE_SIZE_LIMIT` the oldest half of the entries is dropped, then the
freshly allocated result is inserted and its reference returned. -/
def simulateRoomResponse (subPos listenerPos : Point) (L W H : ℝ) (maxModeOrder : ℕ)
    (baseQFactor : ℝ) (st : SimState) : ℕ × SimState :=
  let cacheKey := generateCacheKey subPos listenerPos L W H maxModeOrder baseQFactor
  match st.cache.find? (fun e => e.1 = cacheKey) with
  | some e => (e.2, st)
  | none =>
      let cache' := if CACHE_SIZE_LIMIT ≤ st.cache.length
        then st.cache.drop (CACHE_SIZE_LIMIT / 2) else st.cache
      let finalResponse := simulateRoomResponseList subPos listenerPos L W H maxModeOrder baseQFactor
      let ref := st.heap.length
      (ref, ⟨cache' ++ [(cacheKey, ref)], st.heap ++ [finalResponse]⟩)

/-! ## Target curve generator (`getHarmanTargetDB`) -/

/-- Source `getHarmanTargetDB`: piecewise-linear preference curve with the
optional bass roll-off.  The JavaScript truthiness test
`if (bassRolloffFreq && bassRolloffSlope && freq < bassRolloffFreq)` becomes
presence (`some`) plus non-zeroness; `Math.max(freq, 1)` guards the log. -/
def getHarmanTargetDB (freq : ℝ) (bassRolloffFreq bassRolloffSlope : Option ℝ) : ℝ :=
  let baseDb : ℝ :=
    if freq ≤ 20 then 7
    else if freq < 60 then 7 - (freq - 20) / (60 - 20) * 3
    else if freq < 200 then 4 - (freq - 60) / (200 - 60) * 4
    else if freq ≤ 300 then 0 - (freq - 200) / (300 - 200) * 1
    else -1
  match bassRolloffFreq, bassRolloffSlope with
  | some rolloffFreq, some rolloffSlope =>
      if rolloffFreq ≠ 0 ∧ rolloffSlope ≠ 0 ∧ freq < rolloffFreq then
        let octavesBelow := Real.logb 2 (rolloffFreq / max freq 1)
        let rolloffDb := -octavesBelow * rolloffSlope
        baseDb + rolloffDb
      else baseDb
  | _, _ => baseDb

/-! ## Filter bank (`calculateBandResponse`, `applyEQToResponse`) -/

/-- Source `calculateBandResponse`: parametric bell response of one band in
dB at a given frequency.  The `isFinite`/`isNaN` guard before the final
clamp is an identity over `ℝ` and is omitted. -/
def calculateBandResponse (freq : ℝ) (band : EQBand) : ℝ :=
  if band.type ≠ FilterType.peak then 0
  else
    let f0 := band.frequency
    let gain := band.gain
    let q := band.q
    if freq ≤ 0 ∨ f0 ≤ 0 ∨ q ≤ 0 ∨ |gain| < 0.01 then 0
    else
      let freqRatio := freq / f0
      let qTerm := q * (freqRatio - 1 / freqRatio)
      let denominator := 1 + qTerm * qTerm
      if denominator ≤ 0 then 0
      else
        let linearGain : ℝ := (10 : ℝ) ^ (gain / 20)
        let response := 1 + (linearGain - 1) / denominator
        if response ≤ 1e-10 then -200
        else
          let responseDb := 20 * Real.logb 10 response
          max (-50) (min 20 responseDb)

/-- Source `applyEQToResponse`: returns the input unchanged when disabled or
bandless, otherwise adds every band's contribution to each point and clamps
the result to [−80, 130] dB.  The per-band and total NaN/infinity guards are
identities over `ℝ`. -/
def applyEQToResponse (originalResponse : List ModeResponse) (eqSettings : EQSettings) :
    List ModeResponse :=
  if eqSettings.enabled = false ∨ eqSettings.bands = [] then originalResponse
  else
    originalResponse.map fun point =>
      let totalGain := (eqSettings.bands.map fun band => calculateBandResponse point.freq band).sum
      let finalDb := point.db + totalGain
      ⟨point.freq, max (-80) (min 130 finalDb)⟩

/-! ## Error analyzer (`analyzeTargetError`) -/

/-- One entry of `errorByFrequency`. -/
structure ErrorPoint where
  freq : ℝ
  error : ℝ
  currentDb : ℝ
  targetDb : ℝ

/-- Result of `analyzeTargetError`. -/
structure ErrorAnalysis where
  rmsError : ℝ
  maxError : ℝ
  avgError : ℝ
  errorByFrequency : List ErrorPoint

/-- Loop accumulator of `analyzeTargetError` (`errors`, `sumSquaredError`,
`maxError`, `sumError`, `validPoints`). -/
structure ErrAcc where
  errors : List ErrorPoint
  sumSquaredError : ℝ
  maxError : ℝ
  sumError : ℝ
  validPoints : ℕ

/-- Body of the `for (const currentPoint of currentResponse)` loop: match the
current point against the first target point within 1 Hz and accumulate. -/
def analyzeStep (targetResponse : List ModeResponse) (acc : ErrAcc) (currentPoint : ModeResponse) :
    ErrAcc :=
  match targetResponse.find? (fun t => |t.freq - currentPoint.freq| < 1) with
  | some targetPoint =>
      let error := currentPoint.db - targetPoint.db
      ⟨acc.errors ++ [⟨currentPoint.freq, error, currentPoint.db, targetPoint.db⟩],
        acc.sumSquaredError + error * error,
        max acc.maxError |error|,
        acc.sumError + error,
        acc.validPoints + 1⟩
  | none => acc

/-- Source `analyzeTargetError`: pointwise, RMS, max and average error of a
current response against a target response. -/
def analyzeTargetError (currentResponse targetResponse : List ModeResponse) : ErrorAnalysis :=
  let a := currentResponse.foldl (analyzeStep targetResponse) ⟨[], 0, 0, 0, 0⟩
  { rmsError := if 0 < a.validPoints then Real.sqrt (a.sumSquaredError / a.validPoints) else 0
    maxError := a.maxError
    avgError := if 0 < a.validPoints then a.sumError / a.validPoints else 0
    errorByFrequency := a.errors }

/-! ## Stable sorting (JavaScript `Array.prototype.sort`)

`Array.prototype.sort` is required to be stable; with a consistent numeric
comparator the result is the unique stable sort for that key, here realised
as an insertion sort. -/

/-- Insert for the descending stable sort: `a` is placed before the first
element whose key does not exceed `key a`.  On ties `a` — which precedes the
tail elements in the original list — comes first, which is stability for a
descending comparator. -/
def insertDescBy (key : α → ℝ) (a : α) : List α → List α
  | [] => [a]
  | b :: l => if key b ≤ key a then a :: b :: l else b :: insertDescBy key a l

/-- Stable sort by descending key (`arr.sort((x, y) => key y - key x)`). -/
def sortDescBy (key : α → ℝ) : List α → List α
  | [] => []
  | a :: l => insertDescBy key a (sortDescBy key l)

/-- Insert for the ascending stable sort. -/
def insertAscBy (key : α → ℝ) (a : α) : List α → List α
  | [] => [a]
  | b :: l => if key a ≤ key b then a :: b :: l else b :: insertAscBy key a l

/-- Stable sort by ascending key (`arr.sort((x, y) => key x - key y)`). -/
def sortAscBy (key : α → ℝ) : List α → List α
  | [] => []
  | a :: l => insertAscBy key a (sortAscBy key l)

/-! ## Multi-pass EQ generation (`generateEQPass` and helpers) -/

/-- The four pass kinds of `generateEQPass`. -/
inductive PassType where
  | broad
  | targeted
  | polishing
  | ultraFine
deriving DecidableEq

/-- Options record of `generateEQPass`.  The JavaScript `Set` of used
frequencies is modelled as a list (only membership is ever queried). -/
structure EQPassOptions where
  maxBands : ℕ
  passType : PassType
  maxBoost : ℝ
  maxCut : ℝ
  minQ : ℝ
  maxQ : ℝ
  smoothing : ℝ
  schroederFreq : ℝ
  usedFrequencies : List ℝ

/-- Source `getErrorThreshold` (closure in `generateEQPass`):
frequency-zone-dependent significance threshold per pass type. -/
def getErrorThreshold (passType : PassType) (schroederFreq freq : ℝ) : ℝ :=
  match passType with
  | .broad =>
      if freq < 40 then 0.4
      else if freq < 80 then 0.5
      else if freq < 150 then 0.7
      else if freq < schroederFreq then 1.0
      else 1.5
  | .targeted =>
      if freq < 40 then 0.2
      else if freq < 80 then 0.3
      else if freq < 150 then 0.4
      else if freq < schroederFreq then 0.5
      else 0.7
  | .polishing =>
      if freq < 40 then 0.15
      else if freq < 80 then 0.2
      else if freq < 150 then 0.25
      else if freq < schroederFreq then 0.3
      else 0.4
  | .ultraFine =>
      if freq < 40 then 0.1
      else if freq < 80 then 0.15
      else if freq < 150 then 0.2
      else if freq < schroederFreq then 0.25
      else 0.3

/-- The frequency weighting applied inside the significance sort comparator
(`×3` below 60 Hz, `×2` below 100 Hz, `×1.5` below Schroeder). -/
def errorSortWeight (schroederFreq : ℝ) (e : ErrorPoint) : ℝ :=
  |e.error| *
    (if e.freq < 60 then 3.0
     else if e.freq < 100 then 2.0
     else if e.freq < schroederFreq then 1.5
     else 1)

/-- Source `getMinSpacing` (closure in `smartFrequencyDistribution`). -/
def getMinSpacing (passType : PassType) (freq : ℝ) : ℝ :=
  match passType with
  | .broad =>
      if freq < 40 then 8 else if freq < 80 then 12 else if freq < 150 then 18 else 25
  | .targeted =>
      if freq < 40 then 5 else if freq < 80 then 8 else if freq < 150 then 12 else 15
  | .polishing =>
      if freq < 40 then 4 else if freq < 80 then 6 else if freq < 150 then 8 else 10
  | .ultraFine =>
      if freq < 40 then 3 else if freq < 80 then 4 else if freq < 150 then 5 else 6

/-- One allocation zone of `smartFrequencyDistribution`. -/
structure FreqZone where
  lo : ℝ
  hi : ℝ
  maxBands : ℕ

/-- The zone tables of `smartFrequencyDistribution` (balanced split for at
most 12 bands, low-frequency-skewed split above). -/
def distributionZones (maxBands : ℕ) (schroederFreq : ℝ) : List FreqZone :=
  if maxBands ≤ 12 then
    [⟨20, 50, ⌈(maxBands : ℝ) * 0.25⌉₊⟩,
     ⟨50, 100, ⌈(maxBands : ℝ) * 0.30⌉₊⟩,
     ⟨100, 180, ⌈(maxBands : ℝ) * 0.25⌉₊⟩,
     ⟨180, schroederFreq, ⌈(maxBands : ℝ) * 0.12⌉₊⟩,
     ⟨schroederFreq, 300, ⌈(maxBands : ℝ) * 0.08⌉₊⟩]
  else
    [⟨20, 40, ⌈(maxBands : ℝ) * 0.35⌉₊⟩,
     ⟨40, 80, ⌈(maxBands : ℝ) * 0.40⌉₊⟩,
     ⟨80, 150, ⌈(maxBands : ℝ) * 0.15⌉₊⟩,
     ⟨150, schroederFreq, ⌈(maxBands : ℝ) * 0.08⌉₊⟩,
     ⟨schroederFreq, 300, ⌈(maxBands : ℝ) * 0.02⌉₊⟩]

/-- Spacing test shared by both distribution loops: the candidate is rejected
when an already-used or already-distributed frequency lies within the
pass/frequency-dependent minimum spacing. -/
def tooClose (passType : PassType) (usedFrequencies : List ℝ) (distributed : List ErrorPoint)
    (e : ErrorPoint) : Prop :=
  let minSpacing := getMinSpacing passType e.freq
  (∃ f ∈ usedFrequencies, |f - e.freq| < minSpacing) ∨
    (∃ d ∈ distributed, |d.freq - e.freq| < minSpacing)

/-- PRIORITY pass of `smartFrequencyDistribution`: greedily claim sub-80 Hz
errors above 2.5 dB, respecting spacing and the total band budget.  The
`break` on a full budget is equivalent to skipping every later candidate
because the accumulator only grows. -/
def priorityDistribute (passType : PassType) (maxBands : ℕ) (usedFrequencies : List ℝ)
    (criticalErrors : List ErrorPoint) : List ErrorPoint :=
  criticalErrors.foldl
    (fun distributed e =>
      if maxBands ≤ distributed.length then distributed
      else if tooClose passType usedFrequencies distributed e then distributed
      else distributed ++ [e])
    []

/-- ZONE pass of `smartFrequencyDistribution` for one zone: candidates are
re-filtered against the distribution state at zone entry, and a per-zone
counter seeded with the already-distributed bands of the zone caps the
zone's allocation. -/
def zoneDistribute (passType : PassType) (maxBands : ℕ) (usedFrequencies : List ℝ)
    (errors : List ErrorPoint) (distributed : List ErrorPoint) (zone : FreqZone) :
    List ErrorPoint :=
  let zoneErrors := errors.filter fun e =>
    zone.lo ≤ e.freq ∧ e.freq ≤ zone.hi ∧ ¬∃ d ∈ distributed, |d.freq - e.freq| < 1
  let zoneBands₀ := (distributed.filter fun d => zone.lo ≤ d.freq ∧ d.freq ≤ zone.hi).length
  (zoneErrors.foldl
    (fun (p : List ErrorPoint × ℕ) e =>
      if zone.maxBands ≤ p.2 ∨ maxBands ≤ p.1.length then p
      else if tooClose passType usedFrequencies p.1 e then p
      else (p.1 ++ [e], p.2 + 1))
    (distributed, zoneBands₀)).1

/-- Source `smartFrequencyDistribution`: priority pass for critical low
frequencies followed by the zone pass. -/
def smartFrequencyDistribution (errors : List ErrorPoint) (maxBands : ℕ)
    (schroederFreq : ℝ) (usedFrequencies : List ℝ) (passType : PassType) :
    List ErrorPoint :=
  if errors = [] then []
  else
    let criticalLowFreqErrors := errors.filter fun e => e.freq < 80 ∧ 2.5 < |e.error|
    let afterPriority := priorityDistribute passType maxBands usedFrequencies criticalLowFreqErrors
    (distributionZones maxBands schroederFreq).foldl
      (zoneDistribute passType maxBands usedFrequencies errors) afterPriority

/-- Source `calculatePassQ`: base Q by pass type and frequency, reduced 40 %
for small band budgets, adapted to the error magnitude, and clamped to a
frequency-zone-specific window.  `maxBands && maxBands <= 12` is truthy
exactly when `maxBands ≠ 0 ∧ maxBands ≤ 12`. -/
def calculatePassQ (frequency errorMagnitude : ℝ) (passType : PassType)
    (minQ maxQ : ℝ) (maxBands : ℕ) : ℝ :=
  let isLowBandCount := maxBands ≠ 0 ∧ maxBands ≤ 12
  let qReductionFactor : ℝ := if isLowBandCount then 0.6 else 1.0
  let baseQ : ℝ :=
    match passType with
    | .broad =>
        if frequency < 30 then 1.8
        else if frequency < 50 then 2.2
        else if frequency < 80 then 2.8
        else if frequency < 120 then 3.2
        else if frequency < 200 then 3.8
        else 4.5
    | .targeted =>
        if frequency < 30 then 2.8
        else if frequency < 50 then 3.5
        else if frequency < 80 then 4.2
        else if frequency < 120 then 5.0
        else if frequency < 200 then 5.8
        else 6.5
    | .polishing =>
        if frequency < 30 then 4.0
        else if frequency < 50 then 2.8
        else if frequency < 80 then 3.5
        else if frequency < 120 then 4.5
        else if frequency < 200 then 5.5
        else 7.0
    | .ultraFine =>
        if frequency < 30 then 5.0
        else if frequency < 50 then 4.0
        else if frequency < 80 then 4.8
        else if frequency < 120 then 6.0
        else if frequency < 200 then 7.5
        else 9.0
  let baseQ := baseQ * qReductionFactor
  let baseQ :=
    if 8 < errorMagnitude then baseQ * 0.8
    else if 5 < errorMagnitude then baseQ * 0.95
    else if 2 < errorMagnitude then baseQ * 1.05
    else baseQ * 1.15
  let effectiveMinQ : ℝ :=
    if frequency < 40 then max (if isLowBandCount then 0.8 else 1.5) minQ
    else if frequency < 80 then max (if isLowBandCount then 1.0 else 2.0) minQ
    else if frequency < 200 then max (if isLowBandCount then 1.2 else 2.5) minQ
    else max (if isLowBandCount then 1.5 else 3.0) minQ
  let effectiveMaxQ : ℝ :=
    if frequency < 40 then min maxQ (if isLowBandCount then 4.0 else 6.0)
    else if frequency < 80 then min maxQ (if isLowBandCount then 5.0 else 8.0)
    else if frequency < 200 then min maxQ (if isLowBandCount then 6.0 else 10.0)
    else if isLowBandCount then min maxQ 7.0 else maxQ
  max effectiveMinQ (min effectiveMaxQ baseQ)

/-- Source `addSpectralBalanceCorrection`: optional broad compensating cut at
200 Hz when low-frequency cuts average at least 2 dB and the 150–280 Hz
region sits at least 1.5 dB above target on average. -/
def addSpectralBalanceCorrection (existingBands : List EQBand)
    (currentResponse targetResponse : List ModeResponse) (maxBands : ℕ)
    (maxCut schroederFreq : ℝ) : Option EQBand :=
  if maxBands ≤ existingBands.length then none
  else
    let lowFreqCuts := existingBands.filter fun band =>
      20 ≤ band.frequency ∧ band.frequency ≤ 120 ∧ band.gain < 0
    if lowFreqCuts = [] then none
    else
      let totalLowFreqCut := (lowFreqCuts.map fun band => |band.gain|).sum
      let avgLowFreqCut := totalLowFreqCut / lowFreqCuts.length
      if avgLowFreqCut < 2.0 then none
      else
        let highFreqRegion := currentResponse.filter fun p => 150 ≤ p.freq ∧ p.freq ≤ 280
        let highFreqTargets := targetResponse.filter fun p => 150 ≤ p.freq ∧ p.freq ≤ 280
        if highFreqRegion = [] ∨ highFreqTargets = [] then none
        else
          let errs := highFreqRegion.filterMap fun c =>
            (highFreqTargets.find? fun t => |t.freq - c.freq| < 2).map fun t => c.db - t.db
          if errs.length = 0 then none
          else
            let avgHighFreqError := errs.sum / errs.length
            if avgHighFreqError < 1.5 then none
            else
              some ⟨200, round10 (max (-maxCut * 0.6) (-avgHighFreqError * 0.8)), 0.8,
                FilterType.peak⟩

/-- Gain-scaling factor by pass type (source `passScaling`). -/
def passScalingFactor : PassType → ℝ
  | .broad => 0.95
  | .targeted => 0.9
  | .polishing => 0.85
  | .ultraFine => 0.8

/-- Frequency-scaling factor of the required gain (source `frequencyScaling`). -/
def frequencyScalingFactor (schroederFreq freq : ℝ) : ℝ :=
  if freq < 40 then 1.2
  else if freq < 80 then 1.1
  else if freq < 150 then 1.0
  else if freq < schroederFreq then 0.9
  else 0.7

/-- One iteration of the band-construction loop of `generateEQPass`: scaled
and clamped required gain, 0.2 dB floor, pass Q, 0.1 quantisation. -/
def passBandStep (o : EQPassOptions) (bands : List EQBand) (errorPoint : ErrorPoint) :
    List EQBand :=
  if o.maxBands ≤ bands.length then bands
  else
    let requiredGain := -errorPoint.error * (1 - o.smoothing) *
      (passScalingFactor o.passType * frequencyScalingFactor o.schroederFreq errorPoint.freq)
    let requiredGain :=
      if 0 < requiredGain then min requiredGain o.maxBoost else max requiredGain (-o.maxCut)
    if 0.2 < |requiredGain| then
      let q := calculatePassQ errorPoint.freq |errorPoint.error| o.passType o.minQ o.maxQ
        o.maxBands
      bands ++ [⟨round10 errorPoint.freq, round10 requiredGain, round10 q, FilterType.peak⟩]
    else bands

/-- The band-construction loop of `generateEQPass` over the distributed error
points. -/
def passBandsLoop (o : EQPassOptions) (distributedErrors : List ErrorPoint) : List EQBand :=
  distributedErrors.foldl (passBandStep o) []

/-- Source `generateEQPass`: error analysis, significance filter, weighted
ordering, smart distribution, band construction, and (broad pass with a
small budget only) the spectral-balance compensation band. -/
def generateEQPass (currentResponse targetResponse : List ModeResponse)
    (o : EQPassOptions) : List EQBand :=
  let errorAnalysis := analyzeTargetError currentResponse targetResponse
  let significantErrors := sortDescBy (errorSortWeight o.schroederFreq)
    (errorAnalysis.errorByFrequency.filter fun e =>
      e.freq ≤ 300 ∧ getErrorThreshold o.passType o.schroederFreq e.freq < |e.error|)
  let distributedErrors := smartFrequencyDistribution significantErrors o.maxBands
    o.schroederFreq o.usedFrequencies o.passType
  let bands := passBandsLoop o distributedErrors
  if o.passType = PassType.broad ∧ o.maxBands ≤ 12 then
    match addSpectralBalanceCorrection bands currentResponse targetResponse o.maxBands
      o.maxCut o.schroederFreq with
    | some spectralBalanceBand => bands ++ [spectralBalanceBand]
    | none => bands
  else bands

/-! ## Post-EQ artifact analysis (`analyzePostEQProblems`, `generateCorrectiveBands`) -/

/-- Problem kind (source union `'peak' | 'overshoot'`; the `cause` field is
determined by the kind and carries no extra information). -/
inductive PostEQProblemType where
  | peak
  | overshoot
deriving DecidableEq

/-- Source `interface PostEQProblem` (without the redundant `cause`). -/
structure PostEQProblem where
  frequency : ℝ
  problemType : PostEQProblemType
  severity : ℝ

/-- The `checkFreq` scan between two boost bands: frequencies
`midFreq − 8, midFreq − 7.5, …, midFreq + 8`; the first one at which both
curves have a point within 0.5 Hz and the overshoot above target exceeds
2 dB is reported (then the source `break`s). -/
def findInteractionPeak (eqResponse targetResponse : List ModeResponse) (midFreq : ℝ) :
    Option (ℝ × ℝ) :=
  ((List.range 33).map fun (k : ℕ) => midFreq - 8 + (k : ℝ) * 0.5).findSome? fun checkFreq =>
    match eqResponse.find? (fun p => |p.freq - checkFreq| < 0.5),
        targetResponse.find? (fun p => |p.freq - checkFreq| < 0.5) with
    | some eqPoint, some targetPoint =>
        if 2 < eqPoint.db - targetPoint.db then some (checkFreq, eqPoint.db - targetPoint.db)
        else none
    | _, _ => none

/-- Source `analyzePostEQProblems`: interaction peaks between consecutive
boost bands within 80 Hz of each other, then per-band overcorrection
(> 3 dB overshoot at a boost band's centre). -/
def analyzePostEQProblems (eqResponse targetResponse : List ModeResponse)
    (appliedBands : List EQBand) (schroederFreq : ℝ) : List PostEQProblem :=
  let boostBands := appliedBands.filter fun band => 0 < band.gain
  if boostBands.length < 2 then []
  else
    let interactionProblems := (List.range (boostBands.length - 1)).foldl
      (fun problems i =>
        match boostBands.get? i, boostBands.get? (i + 1) with
        | some band1, some band2 =>
            if 80 < |band2.frequency - band1.frequency| then problems
            else
              let startFreq := min band1.frequency band2.frequency
              let endFreq := max band1.frequency band2.frequency
              let midFreq := (startFreq + endFreq) / 2
              match findInteractionPeak eqResponse targetResponse midFreq with
              | some r => problems ++ [⟨r.1, PostEQProblemType.peak, r.2⟩]
              | none => problems
        | _, _ => problems)
      []
    boostBands.foldl
      (fun problems band =>
        match eqResponse.find? (fun p => |p.freq - band.frequency| < 1),
            targetResponse.find? (fun p => |p.freq - band.frequency| < 1) with
        | some eqPoint, some targetPoint =>
            if 3 < eqPoint.db - targetPoint.db then
              problems ++ [⟨band.frequency, PostEQProblemType.overshoot,
                eqPoint.db - targetPoint.db⟩]
            else problems
        | _, _ => problems)
      interactionProblems

/-- Source `generateCorrectiveBands`: cut bands at the worst problems,
`gain = −severity × 0.95`, `Q = 3.5` for interaction peaks and `2.5` for
direct overshoots, capped at the remaining band budget. -/
def generateCorrectiveBands (problems : List PostEQProblem) (maxCorrectiveBands : ℕ) :
    List EQBand :=
  let sortedProblems := sortDescBy (fun p => p.severity) problems
  (sortedProblems.take maxCorrectiveBands).map fun problem =>
    ⟨round10 problem.frequency, round10 (-problem.severity * 0.95),
      (if problem.problemType = PostEQProblemType.peak then 3.5 else 2.5), FilterType.peak⟩

/-! ## Four-pass EQ generation (`generateOptimalEQ`)

The source function is asynchronous purely for UI pacing (250 ms pauses);
its resolved value is a pure function of the inputs, embedded here with the
intermediate quantities of the `executeIterativePasses` body as named
stage definitions. -/

/-- Resolved options of `generateOptimalEQ` (the destructured defaults).
The unused `subPos` / `listenerPos` / `roomDimensions` / `baseQFactor`
options are omitted: the function body never reads them. -/
structure EQGenOptions where
  numBands : ℕ := 20
  maxBoost : ℝ := 12.0
  maxCut : ℝ := 18.0
  smoothing : ℝ := 0.02
  minQ : ℝ := 0.7
  maxQ : ℝ := 10.0
  schroederFreq : ℝ := 200

/-- `pass1MaxBands = Math.ceil(numBands * 0.3)`. -/
def pass1MaxBands (o : EQGenOptions) : ℕ := ⌈(o.numBands : ℝ) * 0.3⌉₊

/-- Pass 1 (`'broad'`) options. -/
def pass1Options (o : EQGenOptions) : EQPassOptions :=
  ⟨pass1MaxBands o, PassType.broad, o.maxBoost * 0.95, o.maxCut * 0.95, o.minQ,
    min o.maxQ 6.0, o.smoothing * 0.8, o.schroederFreq, []⟩

/-- The bands `generateEQPass` produces in pass 1, before corrective bands. -/
def pass1CoreBands (room target : List ModeResponse) (o : EQGenOptions) : List EQBand :=
  generateEQPass room target (pass1Options o)

/-- `responseAfterPass1 = applyEQToResponse(analysisResponse, pass1EQSettings)`. -/
def responseAfterPass1 (room target : List ModeResponse) (o : EQGenOptions) :
    List ModeResponse :=
  applyEQToResponse room ⟨pass1CoreBands room target o, true, o.maxBoost, o.maxCut, o.smoothing⟩

/-- `newProblems = analyzePostEQProblems(...)` after pass 1. -/
def pass1Problems (room target : List ModeResponse) (o : EQGenOptions) : List PostEQProblem :=
  analyzePostEQProblems (responseAfterPass1 room target o) target (pass1CoreBands room target o)
    o.schroederFreq

/-- The corrective bands appended to pass 1 when post-EQ problems were found. -/
def pass1Corrective (room target : List ModeResponse) (o : EQGenOptions) : List EQBand :=
  if pass1Problems room target o = [] then []
  else generateCorrectiveBands (pass1Problems room target o)
    (pass1MaxBands o - (pass1CoreBands room target o).length)

/-- All pass-1 bands (core plus corrective). -/
def pass1Bands (room target : List ModeResponse) (o : EQGenOptions) : List EQBand :=
  pass1CoreBands room target o ++ pass1Corrective room target o

/-- `pass2ActualBands = Math.min(ceil(numBands*0.3), numBands - pass1Bands.length)`
(non-negative because pass 1 never exceeds its share of the budget). -/
def pass2ActualBands (room target : List ModeResponse) (o : EQGenOptions) : ℕ :=
  min ⌈(o.numBands : ℝ) * 0.3⌉₊ (o.numBands - (pass1Bands room target o).length)

/-- Pass 2 (`'targeted'`) bands, analysing the pass-1-corrected response. -/
def pass2Bands (room target : List ModeResponse) (o : EQGenOptions) : List EQBand :=
  generateEQPass (responseAfterPass1 room target o) target
    ⟨pass2ActualBands room target o, PassType.targeted, o.maxBoost * 0.9, o.maxCut * 0.9,
      o.minQ * 1.05, o.maxQ, o.smoothing * 0.7, o.schroederFreq,
      (pass1Bands room target o).map (·.frequency)⟩

/-- `responseAfterPass2`: the cumulative bands applied to the original
analysis response. -/
def responseAfterPass2 (room target : List ModeResponse) (o : EQGenOptions) :
    List ModeResponse :=
  applyEQToResponse room
    ⟨pass1Bands room target o ++ pass2Bands room target o, true, o.maxBoost, o.maxCut,
      o.smoothing⟩

/-- `pass3ActualBands = Math.min(ceil(numBands*0.25), numBands - |pass1| - |pass2|)`. -/
def pass3ActualBands (room target : List ModeResponse) (o : EQGenOptions) : ℕ :=
  min ⌈(o.numBands : ℝ) * 0.25⌉₊
    (o.numBands - (pass1Bands room target o).length - (pass2Bands room target o).length)

/-- Pass 3 (`'polishing'`) bands, analysing the twice-corrected response. -/
def pass3Bands (room target : List ModeResponse) (o : EQGenOptions) : List EQBand :=
  generateEQPass (responseAfterPass2 room target o) target
    ⟨pass3ActualBands room target o, PassType.polishing, o.maxBoost * 0.8, o.maxCut * 0.8,
      o.minQ * 1.2, o.maxQ, o.smoothing * 0.4, o.schroederFreq,
      (pass1Bands room target o ++ pass2Bands room target o).map (·.frequency)⟩

/-- `responseAfterPass3`: the cumulative bands applied to the original
analysis response. -/
def responseAfterPass3 (room target : List ModeResponse) (o : EQGenOptions) :
    List ModeResponse :=
  applyEQToResponse room
    ⟨pass1Bands room target o ++ pass2Bands room target o ++ pass3Bands room target o, true,
      o.maxBoost, o.maxCut, o.smoothing⟩

/-- Remaining budget for pass 4. -/
def remainingAfterPass3 (room target : List ModeResponse) (o : EQGenOptions) : ℕ :=
  o.numBands - (pass1Bands room target o).length - (pass2Bands room target o).length -
    (pass3Bands room target o).length

/-- Pass 4 (`'ultra-fine'`) bands, analysing the thrice-corrected response. -/
def pass4Bands (room target : List ModeResponse) (o : EQGenOptions) : List EQBand :=
  generateEQPass (responseAfterPass3 room target o) target
    ⟨remainingAfterPass3 room target o, PassType.ultraFine, o.maxBoost * 0.7, o.maxCut * 0.7,
      o.minQ * 1.4, o.maxQ, o.smoothing * 0.2, o.schroederFreq,
      (pass1Bands room target o ++ pass2Bands room target o ++
        pass3Bands room target o).map (·.frequency)⟩

/-- Source `generateOptimalEQ` (the value its promise resolves to): the
degenerate-input guard, four cumulative refinement passes, and the final
frequency-sorted merge.  Pass 3 runs only when it has budget, pass 4 only
when bands remain after pass 3. -/
def generateOptimalEQ (roomResponseWithTilt targetResponse : List ModeResponse)
    (o : EQGenOptions) : EQSettings :=
  if roomResponseWithTilt = [] ∨ targetResponse = [] then
    ⟨[], false, o.maxBoost, o.maxCut, o.smoothing⟩
  else
    let p1 := pass1Bands roomResponseWithTilt targetResponse o
    let p2 := pass2Bands roomResponseWithTilt targetResponse o
    if 0 < pass3ActualBands roomResponseWithTilt targetResponse o then
      let p3 := pass3Bands roomResponseWithTilt targetResponse o
      if 0 < remainingAfterPass3 roomResponseWithTilt targetResponse o then
        let p4 := pass4Bands roomResponseWithTilt targetResponse o
        ⟨sortAscBy (·.frequency) (p1 ++ p2 ++ p3 ++ p4), true, o.maxBoost, o.maxCut, o.smoothing⟩
      else
        ⟨sortAscBy (·.frequency) (p1 ++ p2 ++ p3), true, o.maxBoost, o.maxCut, o.smoothing⟩
    else
      ⟨sortAscBy (·.frequency) (p1 ++ p2), true, o.maxBoost, o.maxCut, o.smoothing⟩

/-! ## Theorems: simulator grid and symmetry -/

/-- **C1**.  For every source position, listener position, room dimensions,
`maxModeOrder` and `baseQFactor`, the simulated response has exactly 281
points whose frequencies are 20, 21, …, 300 Hz in ascending order, and every
point's dB value is at least −100. -/
theorem simulateRoomResponse_grid_and_floor (subPos listenerPos : Point) (L W H : ℝ)
    (maxModeOrder : ℕ) (baseQFactor : ℝ) :
    (simulateRoomResponseList subPos listenerPos L W H maxModeOrder baseQFactor).length = 281 ∧
    (simulateRoomResponseList subPos listenerPos L W H maxModeOrder baseQFactor).map
        ModeResponse.freq = (List.range 281).map (fun k : ℕ => (20 : ℝ) + k) ∧
    ((simulateRoomResponseList subPos listenerPos L W H maxModeOrder baseQFactor).map
        ModeResponse.freq).Chain' (· < ·) ∧
    ∀ p ∈ simulateRoomResponseList subPos listenerPos L W H maxModeOrder baseQFactor,
      (-100 : ℝ) ≤ p.db := by
  have hmap : (simulateRoomResponseList subPos listenerPos L W H maxModeOrder baseQFactor).map
      ModeResponse.freq = (List.range 281).map (fun k : ℕ => (20 : ℝ) + k) := by
    unfold simulateRoomResponseList
    rw [List.map_map]
    rfl
  have hlen : (simulateRoomResponseList subPos listenerPos L W H maxModeOrder
      baseQFactor).length = 281 := by
    unfold simulateRoomResponseList
    rw [List.length_map, List.length_range]
  refine ⟨hlen, hmap, ?_, ?_⟩
  · rw [hmap, List.chain'_map, show (281 : ℕ) = 280 + 1 from rfl, List.chain'_range_succ]
    intro m _
    push_cast
    linarith
  · intro p hp
    simp only [simulateRoomResponseList, List.mem_map, List.mem_range] at hp
    obtain ⟨k, -, rfl⟩ := hp
    exact le_max_left _ _

/-- The coupling is a commutative product of the two positions' pressure
terms, so each mode contributes identically after a swap. -/
theorem modeContribution_swap (subPos listenerPos : Point) (L W H baseQFactor f : ℝ)
    (n m l : ℕ) :
    modeContribution subPos listenerPos L W H baseQFactor f n m l =
      modeContribution listenerPos subPos L W H baseQFactor f n m l := by
  simp only [modeContribution]
  rw [mul_comm (calculateModePressure n m l subPos ⟨L, W, H⟩)
    (calculateModePressure n m l listenerPos ⟨L, W, H⟩)]

/-- Swapping positions leaves the complex mode sum unchanged. -/
theorem totalPressure_swap (subPos listenerPos : Point) (L W H : ℝ) (maxModeOrder : ℕ)
    (baseQFactor f : ℝ) :
    totalPressure subPos listenerPos L W H maxModeOrder baseQFactor f =
      totalPressure listenerPos subPos L W H maxModeOrder baseQFactor f := by
  unfold totalPressure
  exact Finset.sum_congr rfl fun n _ => Finset.sum_congr rfl fun m _ =>
    Finset.sum_congr rfl fun l _ => modeContribution_swap _ _ _ _ _ _ _ _ _ _

/-- **C4**.  Swapping the source and listener positions leaves the simulated
response unchanged, point for point. -/
theorem simulateRoomResponse_swap_symmetric (subPos listenerPos : Point) (L W H : ℝ)
    (maxModeOrder : ℕ) (baseQFactor : ℝ) :
    simulateRoomResponseList subPos listenerPos L W H maxModeOrder baseQFactor =
      simulateRoomResponseList listenerPos subPos L W H maxModeOrder baseQFactor := by
  have h : ∀ f, totalPressure subPos listenerPos L W H maxModeOrder baseQFactor f =
      totalPressure listenerPos subPos L W H maxModeOrder baseQFactor f :=
    fun f => totalPressure_swap subPos listenerPos L W H maxModeOrder baseQFactor f
  simp only [simulateRoomResponseList, h]

/-! ## Theorems: filter bank identities and degenerate bands -/

/-- **C5**.  On disabled or bandless settings the filter bank returns the
input response unchanged. -/
theorem applyEQToResponse_disabled_identity (response : List ModeResponse)
    (eqSettings : EQSettings)
    (h : eqSettings.enabled = false ∨ eqSettings.bands = []) :
    applyEQToResponse response eqSettings = response := by
  unfold applyEQToResponse
  rw [if_pos h]

/-- Witness for `applyEQToResponse_disabled_identity` at a concrete disabled
settings value. -/
theorem applyEQToResponse_disabled_identity_witness :
    ((⟨[⟨50, 3, 1, FilterType.peak⟩], false, 12, 18, 0.02⟩ : EQSettings).enabled = false ∨
      (⟨[⟨50, 3, 1, FilterType.peak⟩], false, 12, 18, 0.02⟩ : EQSettings).bands = []) ∧
    applyEQToResponse [⟨100, 5⟩] ⟨[⟨50, 3, 1, FilterType.peak⟩], false, 12, 18, 0.02⟩ =
      [⟨100, 5⟩] :=
  ⟨Or.inl rfl, applyEQToResponse_disabled_identity [⟨100, 5⟩] _ (Or.inl rfl)⟩

/-- **C10**.  A band that is not a bell (`'peak'`) filter, or has
non-positive centre frequency, non-positive Q, or gain below 0.01 dB in
magnitude — and likewise any evaluation frequency ≤ 0 — contributes exactly
0 dB. -/
theorem calculateBandResponse_degenerate_zero (freq : ℝ) (band : EQBand)
    (h : band.type ≠ FilterType.peak ∨ freq ≤ 0 ∨ band.frequency ≤ 0 ∨ band.q ≤ 0 ∨
      |band.gain| < 0.01) :
    calculateBandResponse freq band = 0 := by
  unfold calculateBandResponse
  by_cases ht : band.type ≠ FilterType.peak
  · rw [if_pos ht]
  · rw [if_neg ht, if_pos]
    rcases h with h | h
    · exact absurd h ht
    · exact h

/-- Witness for `calculateBandResponse_degenerate_zero` at a concrete band
with non-positive Q. -/
theorem calculateBandResponse_degenerate_zero_witness :
    ((⟨50, 5, -1, FilterType.peak⟩ : EQBand).q ≤ 0) ∧
    calculateBandResponse 100 ⟨50, 5, -1, FilterType.peak⟩ = 0 :=
  ⟨by norm_num, calculateBandResponse_degenerate_zero 100 _
    (Or.inr (Or.inr (Or.inr (Or.inl (by norm_num)))))⟩

/-! ## Theorems: degenerate inputs of the EQ generator -/

/-- **C6**.  On an empty room response or an empty target response the EQ
generator immediately returns a disabled, empty `EQSettings` (with the
resolved gain-limit and smoothing options), without running any pass. -/
theorem generateOptimalEQ_empty_input (room target : List ModeResponse) (o : EQGenOptions)
    (h : room = [] ∨ target = []) :
    generateOptimalEQ room target o = ⟨[], false, o.maxBoost, o.maxCut, o.smoothing⟩ := by
  unfold generateOptimalEQ
  rw [if_pos h]

/-- Witness for `generateOptimalEQ_empty_input` on an empty room response
with default options. -/
theorem generateOptimalEQ_empty_input_witness :
    (([] : List ModeResponse) = [] ∨ ([⟨100, 0⟩] : List ModeResponse) = []) ∧
    generateOptimalEQ [] [⟨100, 0⟩] {} = ⟨[], false, 12.0, 18.0, 0.02⟩ :=
  ⟨Or.inl rfl, generateOptimalEQ_empty_input [] [⟨100, 0⟩] {} (Or.inl rfl)⟩

/-! ## Theorems: Harman target curve -/

/-- Counterexample to the claimed roll-off formula.  At `freq = 0.5` with
`rolloffFreq = 2` and `slope = 1` the source computes
`7 − log2(2 / max(0.5, 1)) = 7 − log2 2 = 6`, while the claim's
`7 − slope·log2(rolloffFreq/freq) = 7 − log2 4 = 5`. -/
theorem getHarmanTargetDB_rolloff_counterexample :
    getHarmanTargetDB 0.5 (some 2) (some 1) = 6 ∧
    (getHarmanTargetDB 0.5 none none) - 1 * Real.logb 2 (2 / 0.5) = 5 ∧
    (6 : ℝ) ≠ 5 := by
  refine ⟨?_, ?_, by norm_num⟩
  · unfold getHarmanTargetDB
    norm_num
  · unfold getHarmanTargetDB
    rw [show (2 : ℝ) / 0.5 = 2 ^ (2 : ℕ) by norm_num, Real.logb_pow,
      Real.logb_self_eq_one (by norm_num)]
    norm_num

/-- **C8** (amended).  With no roll-off parameters the target curve is the
piecewise-linear reference curve (+7 dB up to 20 Hz, linear to +4 dB at
60 Hz, to 0 dB at 200 Hz, to −1 dB at 300 Hz, −1 dB beyond; in particular
exactly +7 at 20 Hz, 0 at 200 Hz and −1 at 300 Hz).  With both roll-off
parameters given (non-zero) and `freq < rolloffFreq`, the value is reduced
by `slope · log2(rolloffFreq / max(freq, 1))` — the source clamps the
frequency to at least 1 Hz inside the octave computation. -/
theorem getHarmanTargetDB_spec :
    (∀ freq : ℝ, freq ≤ 20 → getHarmanTargetDB freq none none = 7) ∧
    (∀ freq : ℝ, 20 ≤ freq → freq ≤ 60 →
      getHarmanTargetDB freq none none = 7 - (freq - 20) / 40 * 3) ∧
    (∀ freq : ℝ, 60 ≤ freq → freq ≤ 200 →
      getHarmanTargetDB freq none none = 4 - (freq - 60) / 140 * 4) ∧
    (∀ freq : ℝ, 200 ≤ freq → freq ≤ 300 →
      getHarmanTargetDB freq none none = -((freq - 200) / 100)) ∧
    (∀ freq : ℝ, 300 < freq → getHarmanTargetDB freq none none = -1) ∧
    getHarmanTargetDB 20 none none = 7 ∧
    getHarmanTargetDB 200 none none = 0 ∧
    getHarmanTargetDB 300 none none = -1 ∧
    (∀ freq rolloffFreq rolloffSlope : ℝ, rolloffFreq ≠ 0 → rolloffSlope ≠ 0 →
      freq < rolloffFreq →
      getHarmanTargetDB freq (some rolloffFreq) (some rolloffSlope) =
        getHarmanTargetDB freq none none -
          rolloffSlope * Real.logb 2 (rolloffFreq / max freq 1)) := by
  refine ⟨?_, ?_, ?_, ?_, ?_, ?_, ?_, ?_, ?_⟩
  · intro f h
    unfold getHarmanTargetDB
    split_ifs <;> linarith
  · intro f h1 h2
    unfold getHarmanTargetDB
    split_ifs <;> linarith
  · intro f h1 h2
    unfold getHarmanTargetDB
    split_ifs <;> linarith
  · intro f h1 h2
    unfold getHarmanTargetDB
    split_ifs <;> linarith
  · intro f h
    unfold getHarmanTargetDB
    split_ifs <;> linarith
  · unfold getHarmanTargetDB
    norm_num
  · unfold getHarmanTargetDB
    norm_num
  · unfold getHarmanTargetDB
    norm_num
  · intro f rf rs h1 h2 h3
    have hc : rf ≠ 0 ∧ rs ≠ 0 ∧ f < rf := ⟨h1, h2, h3⟩
    simp only [getHarmanTargetDB]
    rw [if_pos hc]
    ring

/-- Witness for `getHarmanTargetDB_spec`: the boundary values and a concrete
roll-off evaluation, obtained from the theorem. -/
theorem getHarmanTargetDB_spec_witness :
    getHarmanTargetDB 10 none none = 7 ∧
    getHarmanTargetDB 250 none none = -((250 - 200) / 100) ∧
    getHarmanTargetDB 30 (some 40) (some 6) =
      getHarmanTargetDB 30 none none - 6 * Real.logb 2 (40 / max 30 1) := by
  refine ⟨getHarmanTargetDB_spec.1 10 (by norm_num),
    getHarmanTargetDB_spec.2.2.2.1 250 (by norm_num) (by norm_num),
    getHarmanTargetDB_spec.2.2.2.2.2.2.2.2 30 40 6 (by norm_num) (by norm_num) (by norm_num)⟩

/-! ## Theorems: error analyzer -/

/-- The current/target point pairs that `analyzeTargetError` matches: each
current point with the first target point within 1 Hz, in order. -/
def matchedPairs (cur tgt : List ModeResponse) : List (ModeResponse × ModeResponse) :=
  cur.filterMap fun c => (tgt.find? fun t => |t.freq - c.freq| < 1).map fun tp => (c, tp)

/-- Modelled from the spec claim's words: the target point nearest in
frequency to `c` among those within 1 Hz (ties to the earlier point). -/
def nearestTargetWithin1Hz (tgt : List ModeResponse) (c : ModeResponse) :
    Option ModeResponse :=
  (tgt.filter fun t => |t.freq - c.freq| < 1).foldl
    (fun best t =>
      match best with
      | none => some t
      | some b => if |t.freq - c.freq| < |b.freq - c.freq| then some t else some b)
    none

/-- Closed form of the `analyzeTargetError` accumulation loop. -/
theorem analyzeTargetError_foldl (tgt : List ModeResponse) (cur : List ModeResponse)
    (acc : ErrAcc) :
    cur.foldl (analyzeStep tgt) acc =
      ⟨acc.errors ++ (matchedPairs cur tgt).map
          (fun p => ⟨p.1.freq, p.1.db - p.2.db, p.1.db, p.2.db⟩),
        acc.sumSquaredError +
          ((matchedPairs cur tgt).map fun p => (p.1.db - p.2.db) * (p.1.db - p.2.db)).sum,
        ((matchedPairs cur tgt).map fun p => |p.1.db - p.2.db|).foldl max acc.maxError,
        acc.sumError + ((matchedPairs cur tgt).map fun p => p.1.db - p.2.db).sum,
        acc.validPoints + (matchedPairs cur tgt).length⟩ := by
  induction cur generalizing acc with
  | nil => simp [matchedPairs]
  | cons c l ih =>
      rw [List.foldl_cons, ih]
      rcases hfind : tgt.find? (fun t => |t.freq - c.freq| < 1) with _ | tp
      · have hm : matchedPairs (c :: l) tgt = matchedPairs l tgt := by
          simp [matchedPairs, List.filterMap_cons, hfind]
        rw [hm]
        have hstep : analyzeStep tgt acc c = acc := by
          unfold analyzeStep
          rw [hfind]
        rw [hstep]
      · have hm : matchedPairs (c :: l) tgt = (c, tp) :: matchedPairs l tgt := by
          simp [matchedPairs, List.filterMap_cons, hfind]
        rw [hm]
        have hstep : analyzeStep tgt acc c =
            ⟨acc.errors ++ [⟨c.freq, c.db - tp.db, c.db, tp.db⟩],
              acc.sumSquaredError + (c.db - tp.db) * (c.db - tp.db),
              max acc.maxError |c.db - tp.db|,
              acc.sumError + (c.db - tp.db),
              acc.validPoints + 1⟩ := by
          unfold analyzeStep
          rw [hfind]
        rw [hstep]
        simp only [List.map_cons, List.sum_cons, List.foldl_cons, List.length_cons,
          ErrAcc.mk.injEq]
        and_intros <;> first | trivial | simp | ring | omega

/-- **C9** (amended).  `analyzeTargetError` matches each current point with
the *first* target point within 1 Hz (in target-list order, not the nearest),
sets `error = current.db − target.db`, and over the matched points returns
`rmsError = sqrt(mean of squared errors)`, `avgError = mean error`,
`maxError = max |error|` (0 when nothing matches), with `rmsError = 0` and
`avgError = 0` when no points match. -/
theorem analyzeTargetError_eq (cur tgt : List ModeResponse) :
    analyzeTargetError cur tgt =
      { rmsError := if matchedPairs cur tgt ≠ [] then
          Real.sqrt (((matchedPairs cur tgt).map fun p => (p.1.db - p.2.db) ^ 2).sum /
            (matchedPairs cur tgt).length)
         else 0,
        maxError := ((matchedPairs cur tgt).map fun p => |p.1.db - p.2.db|).foldl max 0,
        avgError := if matchedPairs cur tgt ≠ [] then
          ((matchedPairs cur tgt).map fun p => p.1.db - p.2.db).sum /
            (matchedPairs cur tgt).length
         else 0,
        errorByFrequency := (matchedPairs cur tgt).map
          (fun p => ⟨p.1.freq, p.1.db - p.2.db, p.1.db, p.2.db⟩) } := by
  unfold analyzeTargetError
  rw [analyzeTargetError_foldl]
  simp only [ErrorAnalysis.mk.injEq, zero_add, Nat.zero_add, List.nil_append]
  refine ⟨?_, trivial, ?_, trivial⟩
  · by_cases h : matchedPairs cur tgt = []
    · simp [h]
    · have hl : 0 < (matchedPairs cur tgt).length := List.length_pos.mpr h
      rw [if_pos hl, if_pos h]
      have : ((matchedPairs cur tgt).map fun p => (p.1.db - p.2.db) * (p.1.db - p.2.db)) =
          (matchedPairs cur tgt).map fun p => (p.1.db - p.2.db) ^ 2 :=
        List.map_congr_left fun p _ => by ring
      rw [this]
  · by_cases h : matchedPairs cur tgt = []
    · simp [h]
    · have hl : 0 < (matchedPairs cur tgt).length := List.length_pos.mpr h
      rw [if_pos hl, if_pos h]

/-- **C9** (amended).  `analyzeTargetError` matches each current point with
the *first* target point within 1 Hz (in target-list order, not the nearest),
sets `error = current.db − target.db`, and over the matched points returns
`rmsError = sqrt(mean of squared errors)`, `avgError = mean error`,
`maxError = max |error|` (0 when nothing matches), with `rmsError = 0` and
`avgError = 0` when no points match. -/
theorem analyzeTargetError_spec (cur tgt : List ModeResponse) :
    (analyzeTargetError cur tgt).errorByFrequency =
      (matchedPairs cur tgt).map (fun p => ⟨p.1.freq, p.1.db - p.2.db, p.1.db, p.2.db⟩) ∧
    (analyzeTargetError cur tgt).rmsError =
      (if matchedPairs cur tgt ≠ [] then
        Real.sqrt (((matchedPairs cur tgt).map fun p => (p.1.db - p.2.db) ^ 2).sum /
          (matchedPairs cur tgt).length)
       else 0) ∧
    (analyzeTargetError cur tgt).avgError =
      (if matchedPairs cur tgt ≠ [] then
        ((matchedPairs cur tgt).map fun p => p.1.db - p.2.db).sum /
          (matchedPairs cur tgt).length
       else 0) ∧
    (analyzeTargetError cur tgt).maxError =
      ((matchedPairs cur tgt).map fun p => |p.1.db - p.2.db|).foldl max 0 ∧
    ∀ p ∈ matchedPairs cur tgt, |p.2.freq - p.1.freq| < 1 := by
  rw [analyzeTargetError_eq]
  refine ⟨rfl, rfl, rfl, rfl, ?_⟩
  intro p hp
  unfold matchedPairs at hp
  rw [List.mem_filterMap] at hp
  obtain ⟨c, -, hceq⟩ := hp
  rw [Option.map_eq_some'] at hceq
  obtain ⟨tp, hfind, rfl⟩ := hceq
  have := List.find?_some hfind
  simpa using this

/-- Counterexample to "matches by nearest frequency": with current point
100 Hz and target points at 99.5 Hz (0 dB) and 100 Hz (3 dB), the source's
`find` picks the *first* point within 1 Hz (99.5 Hz, 0 dB) although the
nearest is the exact-frequency point (3 dB). -/
theorem analyzeTargetError_first_match_counterexample :
    (analyzeTargetError [⟨100, 5⟩] [⟨99.5, 0⟩, ⟨100, 3⟩]).errorByFrequency =
      [⟨100, 5, 5, 0⟩] ∧
    nearestTargetWithin1Hz [⟨99.5, 0⟩, ⟨100, 3⟩] ⟨100, 5⟩ = some ⟨100, 3⟩ ∧
    (⟨100, 5, 5, 0⟩ : ErrorPoint).targetDb ≠ (⟨100, 3⟩ : ModeResponse).db := by
  have hfind : ([⟨99.5, 0⟩, ⟨100, 3⟩] : List ModeResponse).find?
      (fun t => |t.freq - (⟨100, 5⟩ : ModeResponse).freq| < 1) = some ⟨99.5, 0⟩ :=
    List.find?_cons_of_pos _ (by norm_num [abs_sub_lt_iff, abs_lt])
  refine ⟨?_, ?_, by norm_num⟩
  · unfold analyzeTargetError
    rw [analyzeTargetError_foldl]
    show [] ++ _ = _
    rw [List.nil_append]
    unfold matchedPairs
    rw [List.filterMap_cons, List.filterMap_nil, hfind]
    show [(⟨100, (5 : ℝ) - 0, 5, 0⟩ : ErrorPoint)] = _
    norm_num
  · unfold nearestTargetWithin1Hz
    rw [List.filter_cons_of_pos (by norm_num [abs_sub_lt_iff, abs_lt]),
      List.filter_cons_of_pos (by norm_num [abs_sub_lt_iff, abs_lt]),
      List.filter_nil, List.foldl_cons, List.foldl_cons, List.foldl_nil]
    show (if |(100 : ℝ) - 100| < |99.5 - 100| then _ else _) = _
    rw [if_pos (by norm_num [abs_pos])]

/-- Witness for `analyzeTargetError_spec`: a concrete matched pair with its
error, average and RMS taken from the theorem. -/
theorem analyzeTargetError_spec_witness :
    (analyzeTargetError [⟨100, 5⟩] [⟨100, 3⟩]).errorByFrequency =
      (matchedPairs [⟨100, 5⟩] [⟨100, 3⟩]).map
        (fun p => ⟨p.1.freq, p.1.db - p.2.db, p.1.db, p.2.db⟩) ∧
    ∀ p ∈ matchedPairs [⟨100, 5⟩] [⟨100, 3⟩], |p.2.freq - p.1.freq| < 1 :=
  ⟨(analyzeTargetError_spec [⟨100, 5⟩] [⟨100, 3⟩]).1,
    (analyzeTargetError_spec [⟨100, 5⟩] [⟨100, 3⟩]).2.2.2.2⟩

/-! ## Theorems: the parametric bell formula of the filter bank -/

/-- `1e-10` as a real power of ten. -/
theorem onePowNegTen : (1e-10 : ℝ) = (10 : ℝ) ^ (-10 : ℝ) := by
  rw [show (-10 : ℝ) = ((-10 : ℤ) : ℝ) by norm_num, Real.rpow_intCast]
  norm_num

/-- At its own centre frequency a bell band's pre-log response is exactly
`10^(gain/20)`, so the contribution is the gain itself clamped — or −200 on
the deep-cut escape branch. -/
theorem calculateBandResponse_center (f0 g q : ℝ) (hf : 0 < f0) (hq : 0 < q)
    (hg : 0.01 ≤ |g|) :
    calculateBandResponse f0 ⟨f0, g, q, FilterType.peak⟩ =
      (if (10 : ℝ) ^ (g / 20) ≤ 1e-10 then -200
       else max (-50) (min 20 g)) := by
  have hresp : (1 : ℝ) + ((10 : ℝ) ^ (g / 20) - 1) /
      (1 + q * (f0 / f0 - 1 / (f0 / f0)) * (q * (f0 / f0 - 1 / (f0 / f0)))) =
      (10 : ℝ) ^ (g / 20) := by
    rw [div_self hf.ne']
    norm_num
  simp only [calculateBandResponse]
  rw [if_neg (by simp)]
  rw [if_neg (by push_neg; exact ⟨hf, hf, hq, hg⟩)]
  rw [if_neg (by rw [div_self hf.ne']; norm_num)]
  rw [hresp]
  split_ifs with h
  · rfl
  · rw [Real.logb_rpow (by norm_num) (by norm_num), show (20 : ℝ) * (g / 20) = g by ring]

/-- For moderate gains the centre contribution is exactly the configured
gain. -/
theorem calculateBandResponse_center_exact (f0 g q : ℝ) (hf : 0 < f0) (hq : 0 < q)
    (hg : 0.01 ≤ |g|) (hgl : -50 ≤ g) (hgu : g ≤ 20) :
    calculateBandResponse f0 ⟨f0, g, q, FilterType.peak⟩ = g := by
  rw [calculateBandResponse_center f0 g q hf hq hg, if_neg, min_eq_right hgu,
    max_eq_right hgl]
  rw [not_le, onePowNegTen]
  exact (Real.rpow_lt_rpow_left_iff (by norm_num)).mpr (by linarith)

/-- The deep-cut escape branch: a −400 dB band at its centre returns −200,
not a [−50, 20]-clamped value. -/
theorem calculateBandResponse_deep_cut :
    calculateBandResponse 100 ⟨100, -400, 1, FilterType.peak⟩ = -200 := by
  rw [calculateBandResponse_center 100 (-400) 1 (by norm_num) (by norm_num)
    (by rw [abs_of_nonpos (by norm_num)]; norm_num)]
  rw [if_pos]
  rw [show ((-400 : ℝ) / 20) = (-10 : ℝ) + -10 by norm_num, Real.rpow_add (by norm_num),
    onePowNegTen]
  nth_rewrite 3 [show ((10 : ℝ) ^ (-10 : ℝ)) = (10 : ℝ) ^ (-10 : ℝ) * 1 by ring]
  refine mul_le_mul_of_nonneg_left ?_ (le_of_lt (Real.rpow_pos_of_pos (by norm_num) _))
  rw [show (1 : ℝ) = (10 : ℝ) ^ (0 : ℝ) by rw [Real.rpow_zero]]
  exact (Real.rpow_le_rpow_left_iff (by norm_num)).mpr (by norm_num)

/-- Modelled from the claim's words for C3: per-band contribution
`20·log10(H)` with `H = 1 + (10^(gain/20) − 1)/(1 + (Q·(f/f0 − f0/f))²)`,
invalid (≤ 0 before the log; NaN/∞ cannot arise over `ℝ`) contributions
treated as 0 dB, and every contribution clamped to [−50, 20] dB. -/
def calculateBandResponseSpec (freq : ℝ) (band : EQBand) : ℝ :=
  let H := 1 + ((10 : ℝ) ^ (band.gain / 20) - 1) /
    (1 + (band.q * (freq / band.frequency - band.frequency / freq)) ^ 2)
  if H ≤ 0 then 0 else max (-50) (min 20 (20 * Real.logb 10 H))

/-- Modelled from the claim's words for C3: sum the per-band contributions of
`calculateBandResponseSpec` and clamp the result to [−80, 130] dB. -/
def applyEQToResponseSpec (originalResponse : List ModeResponse) (eqSettings : EQSettings) :
    List ModeResponse :=
  if eqSettings.enabled = false ∨ eqSettings.bands = [] then originalResponse
  else
    originalResponse.map fun point =>
      ⟨point.freq, max (-80) (min 130 (point.db +
        (eqSettings.bands.map fun band => calculateBandResponseSpec point.freq band).sum))⟩

/-- Counterexample to the claimed per-band clamping: a −400 dB band at its
own centre has pre-log response `10^(−20) ≤ 1e-10`, so the source returns
−200 dB for the band (bypassing the [−50, 20] clamp) and −80 dB for the
point after the final clamp, whereas the claim's pipeline yields −50 dB. -/
theorem applyEQToResponse_minus200_counterexample :
    applyEQToResponse [⟨100, 0⟩] ⟨[⟨100, -400, 1, FilterType.peak⟩], true, 12, 18, 0⟩ =
      [⟨100, -80⟩] ∧
    applyEQToResponseSpec [⟨100, 0⟩] ⟨[⟨100, -400, 1, FilterType.peak⟩], true, 12, 18, 0⟩ =
      [⟨100, -50⟩] ∧
    (⟨100, (-80 : ℝ)⟩ : ModeResponse) ≠ ⟨100, -50⟩ := by
  have hH : (1 : ℝ) + ((10 : ℝ) ^ ((-400 : ℝ) / 20) - 1) /
      (1 + ((1 : ℝ) * ((100 : ℝ) / 100 - 100 / 100)) ^ 2) = (10 : ℝ) ^ (-20 : ℝ) := by
    rw [show ((-400 : ℝ) / 20) = (-20 : ℝ) by norm_num]
    norm_num
  refine ⟨?_, ?_, by simp only [ne_eq, ModeResponse.mk.injEq]; norm_num⟩
  · unfold applyEQToResponse
    rw [if_neg (by simp)]
    simp only [List.map_cons, List.map_nil, List.sum_cons, List.sum_nil]
    rw [calculateBandResponse_deep_cut]
    norm_num
  · unfold applyEQToResponseSpec
    rw [if_neg (by simp)]
    simp only [List.map_cons, List.map_nil, List.sum_cons, List.sum_nil]
    unfold calculateBandResponseSpec
    simp only []
    rw [hH]
    rw [if_neg (by rw [not_le]; exact Real.rpow_pos_of_pos (by norm_num) _)]
    rw [Real.logb_rpow (by norm_num) (by norm_num)]
    norm_num

/-- **C3** (amended).  When enabled with at least one band, the filter bank
maps each input point to its dB value plus the sum of the per-band
contributions, clamped to [−80, 130]; each non-degenerate bell band's
contribution follows `H(f) = 1 + (10^(gain/20) − 1)/(1 + (Q·(f/f0 − f0/f))²)`
in dB clamped to [−50, 20], **except** that a pre-log response `≤ 1e-10`
yields −200 dB, bypassing the per-band clamp (the claimed "≤ 0 before the
log ⇒ 0 dB" case is unreachable over the reals, where `H > 0` always).
NaN/∞ guards are identities over `ℝ`. -/
theorem applyEQToResponse_bell_formula (r : List ModeResponse) (s : EQSettings)
    (hs : s.enabled = true) (hb : s.bands ≠ []) :
    applyEQToResponse r s = r.map (fun point =>
      ⟨point.freq, max (-80) (min 130 (point.db +
        (s.bands.map fun band => calculateBandResponse point.freq band).sum))⟩) ∧
    ∀ (freq : ℝ) (band : EQBand), band.type = FilterType.peak → 0 < freq →
      0 < band.frequency → 0 < band.q → 0.01 ≤ |band.gain| →
      calculateBandResponse freq band =
        (if 1 + ((10 : ℝ) ^ (band.gain / 20) - 1) /
            (1 + (band.q * (freq / band.frequency - band.frequency / freq)) ^ 2) ≤ 1e-10
         then -200
         else max (-50) (min 20 (20 * Real.logb 10
            (1 + ((10 : ℝ) ^ (band.gain / 20) - 1) /
              (1 + (band.q * (freq / band.frequency - band.frequency / freq)) ^ 2))))) := by
  constructor
  · unfold applyEQToResponse
    rw [if_neg (by push_neg; exact ⟨by simp [hs], hb⟩)]
  · intro freq band hty hfr hf0 hq hg
    have hterm : (1 : ℝ) + ((10 : ℝ) ^ (band.gain / 20) - 1) /
        (1 + band.q * (freq / band.frequency - 1 / (freq / band.frequency)) *
          (band.q * (freq / band.frequency - 1 / (freq / band.frequency)))) =
        1 + ((10 : ℝ) ^ (band.gain / 20) - 1) /
          (1 + (band.q * (freq / band.frequency - band.frequency / freq)) ^ 2) := by
      rw [one_div_div]
      ring
    simp only [calculateBandResponse]
    rw [if_neg (by simp [hty])]
    rw [if_neg (by push_neg; exact ⟨not_le.mp (by rw [not_le]; exact hfr),
      not_le.mp (by rw [not_le]; exact hf0), not_le.mp (by rw [not_le]; exact hq),
      not_lt.mp (by rw [not_lt]; exact hg)⟩)]
    rw [if_neg (by
      rw [not_le]
      have := mul_self_nonneg (band.q * (freq / band.frequency - 1 / (freq / band.frequency)))
      linarith)]
    rw [hterm]

/-- Witness for `applyEQToResponse_bell_formula`: the bell formula of a
concrete +6 dB band at its centre, obtained from the theorem. -/
theorem applyEQToResponse_bell_formula_witness :
    calculateBandResponse 100 ⟨100, 6, 1, FilterType.peak⟩ =
      (if 1 + ((10 : ℝ) ^ ((6 : ℝ) / 20) - 1) /
          (1 + ((1 : ℝ) * ((100 : ℝ) / 100 - 100 / 100)) ^ 2) ≤ 1e-10
       then -200
       else max (-50) (min 20 (20 * Real.logb 10
          (1 + ((10 : ℝ) ^ ((6 : ℝ) / 20) - 1) /
            (1 + ((1 : ℝ) * ((100 : ℝ) / 100 - 100 / 100)) ^ 2))))) :=
  (applyEQToResponse_bell_formula [⟨100, 2⟩]
      ⟨[⟨100, 6, 1, FilterType.peak⟩], true, 12, 18, 0⟩ rfl (by simp)).2
    100 ⟨100, 6, 1, FilterType.peak⟩ rfl (by norm_num) (by norm_num) (by norm_num)
    (by norm_num)

/-! ## Theorems: the memoization cache -/

/-- The pure computation always produces the 281-point grid, hence is never
empty. -/
theorem simulateRoomResponseList_length (subPos listenerPos : Point) (L W H : ℝ)
    (maxModeOrder : ℕ) (baseQFactor : ℝ) :
    (simulateRoomResponseList subPos listenerPos L W H maxModeOrder baseQFactor).length =
      281 := by
  unfold simulateRoomResponseList
  rw [List.length_map, List.length_range]

/-- Behaviour of `simulateRoomResponse` on a cache hit: the stored reference
is returned verbatim and the state is untouched. -/
theorem simulateRoomResponse_hit (subPos listenerPos : Point) (L W H : ℝ)
    (maxModeOrder : ℕ) (baseQFactor : ℝ) (st : SimState) (e : CacheKey × ℕ)
    (h : st.cache.find?
      (fun x => x.1 = generateCacheKey subPos listenerPos L W H maxModeOrder baseQFactor) =
      some e) :
    simulateRoomResponse subPos listenerPos L W H maxModeOrder baseQFactor st = (e.2, st) := by
  simp only [simulateRoomResponse]
  rw [h]

/-- Behaviour of `simulateRoomResponse` on a cache miss: possible bulk
eviction, then allocation of the fresh response and insertion at the back of
the map. -/
theorem simulateRoomResponse_miss (subPos listenerPos : Point) (L W H : ℝ)
    (maxModeOrder : ℕ) (baseQFactor : ℝ) (st : SimState)
    (h : st.cache.find?
      (fun x => x.1 = generateCacheKey subPos listenerPos L W H maxModeOrder baseQFactor) =
      none) :
    simulateRoomResponse subPos listenerPos L W H maxModeOrder baseQFactor st =
      (st.heap.length,
        ⟨(if CACHE_SIZE_LIMIT ≤ st.cache.length
            then st.cache.drop (CACHE_SIZE_LIMIT / 2) else st.cache) ++
          [(generateCacheKey subPos listenerPos L W H maxModeOrder baseQFactor,
            st.heap.length)],
          st.heap ++
            [simulateRoomResponseList subPos listenerPos L W H maxModeOrder baseQFactor]⟩) := by
  simp only [simulateRoomResponse]
  rw [h]

/-- **C7** (amended).  A second call with the same (rounded) arguments is a
cache hit: it returns the *same reference* as the first call, leaves the
state untouched, and therefore dereferences to a value equal to the first
call's — as long as nothing mutated the shared array in between. -/
theorem simulateRoomResponse_cache_repeat (subPos listenerPos : Point) (L W H : ℝ)
    (maxModeOrder : ℕ) (baseQFactor : ℝ) (st : SimState) :
    (simulateRoomResponse subPos listenerPos L W H maxModeOrder baseQFactor
        (simulateRoomResponse subPos listenerPos L W H maxModeOrder baseQFactor st).2).1 =
      (simulateRoomResponse subPos listenerPos L W H maxModeOrder baseQFactor st).1 ∧
    (simulateRoomResponse subPos listenerPos L W H maxModeOrder baseQFactor
        (simulateRoomResponse subPos listenerPos L W H maxModeOrder baseQFactor st).2).2 =
      (simulateRoomResponse subPos listenerPos L W H maxModeOrder baseQFactor st).2 ∧
    ((simulateRoomResponse subPos listenerPos L W H maxModeOrder baseQFactor
        (simulateRoomResponse subPos listenerPos L W H maxModeOrder baseQFactor st).2).2).deref
      (simulateRoomResponse subPos listenerPos L W H maxModeOrder baseQFactor
        (simulateRoomResponse subPos listenerPos L W H maxModeOrder baseQFactor st).2).1 =
      ((simulateRoomResponse subPos listenerPos L W H maxModeOrder baseQFactor st).2).deref
        (simulateRoomResponse subPos listenerPos L W H maxModeOrder baseQFactor st).1 := by
  set key := generateCacheKey subPos listenerPos L W H maxModeOrder baseQFactor with hkey
  rcases hfind : st.cache.find? (fun x => x.1 = key) with _ | e
  · have h1 := simulateRoomResponse_miss subPos listenerPos L W H maxModeOrder baseQFactor st
      (by rw [← hkey]; exact hfind)
    rw [h1]
    have hfind2 : (((if CACHE_SIZE_LIMIT ≤ st.cache.length
          then st.cache.drop (CACHE_SIZE_LIMIT / 2) else st.cache) ++
          [(key, st.heap.length)]).find? (fun x => x.1 = key)) =
        some (key, st.heap.length) := by
      rw [List.find?_append]
      have hnone : ((if CACHE_SIZE_LIMIT ≤ st.cache.length
          then st.cache.drop (CACHE_SIZE_LIMIT / 2) else st.cache).find?
          (fun x => x.1 = key)) = none := by
        rw [List.find?_eq_none] at hfind ⊢
        intro x hx
        refine hfind x ?_
        split at hx
        · exact List.mem_of_mem_drop hx
        · exact hx
      rw [hnone, Option.none_or]
      exact List.find?_cons_of_pos _ (by simp)
    have h2 := simulateRoomResponse_hit subPos listenerPos L W H maxModeOrder baseQFactor
      ⟨(if CACHE_SIZE_LIMIT ≤ st.cache.length
          then st.cache.drop (CACHE_SIZE_LIMIT / 2) else st.cache) ++
        [(key, st.heap.length)],
        st.heap ++
          [simulateRoomResponseList subPos listenerPos L W H maxModeOrder baseQFactor]⟩
      (key, st.heap.length) (by rw [← hkey]; exact hfind2)
    rw [h2]
    exact ⟨rfl, rfl, rfl⟩
  · have h1 := simulateRoomResponse_hit subPos listenerPos L W H maxModeOrder baseQFactor st
      e (by rw [← hkey]; exact hfind)
    rw [h1]
    have h2 := simulateRoomResponse_hit subPos listenerPos L W H maxModeOrder baseQFactor st
      e (by rw [← hkey]; exact hfind)
    rw [h2]
    exact ⟨rfl, rfl, rfl⟩

/-- State after a first simulation call on the empty cache. -/
def c7State1 : SimState :=
  (simulateRoomResponse ⟨1, 1, 1⟩ ⟨2, 2, 2⟩ 5 4 3 1 10 SimState.empty).2

/-- Reference returned by that first call. -/
def c7Ref : ℕ :=
  (simulateRoomResponse ⟨1, 1, 1⟩ ⟨2, 2, 2⟩ 5 4 3 1 10 SimState.empty).1

/-- The caller truncates the returned array (e.g. `arr.length = 0`) through
its reference. -/
def c7Mutated : SimState := c7State1.mutateRef c7Ref []

/-- A later call with the same arguments, after the mutation. -/
def c7Second : ℕ × SimState :=
  simulateRoomResponse ⟨1, 1, 1⟩ ⟨2, 2, 2⟩ 5 4 3 1 10 c7Mutated

/-- Counterexample to "mutating the returned sequence does not affect a later
cache hit": the cache stores the array by reference, so after truncating the
returned array a later cache-hit call returns the same reference, which now
dereferences to `[]` instead of the original 281-point response. -/
theorem simulateRoomResponse_cache_mutation_counterexample :
    c7State1.deref c7Ref = simulateRoomResponseList ⟨1, 1, 1⟩ ⟨2, 2, 2⟩ 5 4 3 1 10 ∧
    c7Second.1 = c7Ref ∧
    c7Second.2.deref c7Second.1 = [] ∧
    simulateRoomResponseList ⟨1, 1, 1⟩ ⟨2, 2, 2⟩ 5 4 3 1 10 ≠ [] := by
  have h1 := simulateRoomResponse_miss ⟨1, 1, 1⟩ ⟨2, 2, 2⟩ 5 4 3 1 10 SimState.empty rfl
  have hifneg : ¬(CACHE_SIZE_LIMIT ≤ (SimState.empty).cache.length) := by
    simp [SimState.empty, CACHE_SIZE_LIMIT]
  rw [if_neg hifneg] at h1
  have hs1 : c7State1 =
      ⟨[(generateCacheKey ⟨1, 1, 1⟩ ⟨2, 2, 2⟩ 5 4 3 1 10, 0)],
        [simulateRoomResponseList ⟨1, 1, 1⟩ ⟨2, 2, 2⟩ 5 4 3 1 10]⟩ := by
    unfold c7State1
    rw [h1]
    rfl
  have hr : c7Ref = 0 := by
    unfold c7Ref
    rw [h1]
    rfl
  have hmut : c7Mutated =
      ⟨[(generateCacheKey ⟨1, 1, 1⟩ ⟨2, 2, 2⟩ 5 4 3 1 10, 0)], [[]]⟩ := by
    unfold c7Mutated
    rw [hs1, hr]
    rfl
  have h2 := simulateRoomResponse_hit ⟨1, 1, 1⟩ ⟨2, 2, 2⟩ 5 4 3 1 10
    ⟨[(generateCacheKey ⟨1, 1, 1⟩ ⟨2, 2, 2⟩ 5 4 3 1 10, 0)], [[]]⟩
    (generateCacheKey ⟨1, 1, 1⟩ ⟨2, 2, 2⟩ 5 4 3 1 10, 0)
    (List.find?_cons_of_pos _ (by simp))
  have hsecond : c7Second =
      (0, ⟨[(generateCacheKey ⟨1, 1, 1⟩ ⟨2, 2, 2⟩ 5 4 3 1 10, 0)], [[]]⟩) := by
    unfold c7Second
    rw [hmut, h2]
  refine ⟨?_, ?_, ?_, ?_⟩
  · rw [hs1, hr]
    rfl
  · rw [hsecond, hr]
  · rw [hsecond]
    rfl
  · intro h
    have hl := simulateRoomResponseList_length ⟨1, 1, 1⟩ ⟨2, 2, 2⟩ 5 4 3 1 10
    rw [h] at hl
    simp at hl

/-! ## Theorems: band budget and gain bounds of the EQ generator -/

/-- 0.1-quantisation moves a value by at most 0.05. -/
theorem round10_abs_le (x : ℝ) : |round10 x| ≤ |x| + 0.05 := by
  unfold round10 jsRound
  have h1 : ((⌊x * 10 + 1 / 2⌋ : ℤ) : ℝ) ≤ x * 10 + 1 / 2 := Int.floor_le _
  have h2 : x * 10 + 1 / 2 - 1 < ((⌊x * 10 + 1 / 2⌋ : ℤ) : ℝ) := Int.sub_one_lt_floor _
  have h3 := le_abs_self x
  have h4 := neg_abs_le x
  rw [abs_le]
  constructor <;> linarith

/-- One loop iteration keeps the band list within the pass budget. -/
theorem passBandStep_length (o : EQPassOptions) (acc : List EQBand) (e : ErrorPoint)
    (h : acc.length ≤ o.maxBands) : (passBandStep o acc e).length ≤ o.maxBands := by
  simp only [passBandStep]
  split_ifs with h1 h2 h3 h4 <;>
    first
      | exact h
      | (rw [List.length_append]; simp only [List.length_singleton]; omega)

/-- One loop iteration only appends bands whose clamped gain respects the
pass gain limits, up to the 0.05 quantisation margin. -/
theorem passBandStep_gain (o : EQPassOptions) (hB : 0 ≤ o.maxBoost) (hC : 0 ≤ o.maxCut)
    (acc : List EQBand) (e : ErrorPoint) (b : EQBand) (hb : b ∈ passBandStep o acc e) :
    b ∈ acc ∨ |b.gain| ≤ max o.maxBoost o.maxCut + 0.05 := by
  simp only [passBandStep] at hb
  split_ifs at hb with h1 hpos hg hg'
  · exact Or.inl hb
  · rw [List.mem_append, List.mem_singleton] at hb
    rcases hb with hb | hb
    · exact Or.inl hb
    · right
      subst hb
      refine le_trans (round10_abs_le _) ?_
      have hv : |min (-e.error * (1 - o.smoothing) *
          (passScalingFactor o.passType * frequencyScalingFactor o.schroederFreq e.freq))
            o.maxBoost| ≤ max o.maxBoost o.maxCut := by
        rw [abs_of_nonneg (le_min (le_of_lt hpos) hB)]
        exact le_trans (min_le_right _ _) (le_max_left _ _)
      linarith
  · exact Or.inl hb
  · rw [List.mem_append, List.mem_singleton] at hb
    rcases hb with hb | hb
    · exact Or.inl hb
    · right
      subst hb
      refine le_trans (round10_abs_le _) ?_
      have hle : max (-e.error * (1 - o.smoothing) *
          (passScalingFactor o.passType * frequencyScalingFactor o.schroederFreq e.freq))
            (-o.maxCut) ≤ 0 := by
        rw [not_lt] at hpos
        exact max_le hpos (by linarith)
      have hge : -o.maxCut ≤ max (-e.error * (1 - o.smoothing) *
          (passScalingFactor o.passType * frequencyScalingFactor o.schroederFreq e.freq))
            (-o.maxCut) := le_max_right _ _
      have hv : |max (-e.error * (1 - o.smoothing) *
          (passScalingFactor o.passType * frequencyScalingFactor o.schroederFreq e.freq))
            (-o.maxCut)| ≤ max o.maxBoost o.maxCut := by
        rw [abs_of_nonpos hle]
        exact le_trans (by linarith) (le_max_right o.maxBoost o.maxCut)
      linarith
  · exact Or.inl hb

/-- The pass loop never exceeds the pass band budget. -/
theorem passBandsLoop_length (o : EQPassOptions) (d : List ErrorPoint) :
    (passBandsLoop o d).length ≤ o.maxBands := by
  unfold passBandsLoop
  suffices h : ∀ acc : List EQBand, acc.length ≤ o.maxBands →
      (d.foldl (passBandStep o) acc).length ≤ o.maxBands by
    exact h [] (by simp)
  induction d with
  | nil => intro acc h; simpa using h
  | cons e l ih =>
      intro acc h
      rw [List.foldl_cons]
      exact ih _ (passBandStep_length o acc e h)

/-- Every band the pass loop produces respects the pass gain limits up to
0.05. -/
theorem passBandsLoop_gain (o : EQPassOptions) (hB : 0 ≤ o.maxBoost) (hC : 0 ≤ o.maxCut)
    (d : List ErrorPoint) (b : EQBand) (hb : b ∈ passBandsLoop o d) :
    |b.gain| ≤ max o.maxBoost o.maxCut + 0.05 := by
  unfold passBandsLoop at hb
  suffices h : ∀ acc : List EQBand, (∀ x ∈ acc, |EQBand.gain x| ≤ max o.maxBoost o.maxCut + 0.05) →
      ∀ x ∈ d.foldl (passBandStep o) acc, |EQBand.gain x| ≤ max o.maxBoost o.maxCut + 0.05 by
    exact h [] (by simp) b hb
  clear hb
  induction d with
  | nil => intro acc h; simpa using h
  | cons e l ih =>
      intro acc h
      rw [List.foldl_cons]
      refine ih _ ?_
      intro x hx
      rcases passBandStep_gain o hB hC acc e x hx with hx' | hx'
      · exact h x hx'
      · exact hx'

/-- A quantised compensating cut `round10(max(−c·0.6, −v·0.8))` with `c, v ≥ 0`
is at most `0.6·c + 0.05` in magnitude. -/
theorem round10_neg_clamp (c v : ℝ) (hc : 0 ≤ c) (hv : 0 ≤ v) :
    |round10 (max (-c * 0.6) (-v * 0.8))| ≤ 0.6 * c + 0.05 := by
  refine le_trans (round10_abs_le _) ?_
  have hle : max (-c * 0.6) (-v * 0.8) ≤ 0 := max_le (by linarith) (by linarith)
  have hge : -c * 0.6 ≤ max (-c * 0.6) (-v * 0.8) := le_max_left _ _
  rw [abs_of_nonpos hle]
  linarith

/-- A spectral-balance band is only produced while the pass is under budget. -/
theorem addSpectralBalanceCorrection_some_length (existingBands : List EQBand)
    (cur tgt : List ModeResponse) (maxBands : ℕ) (maxCut schroederFreq : ℝ) (b : EQBand)
    (h : addSpectralBalanceCorrection existingBands cur tgt maxBands maxCut schroederFreq =
      some b) :
    existingBands.length < maxBands := by
  simp only [addSpectralBalanceCorrection] at h
  split_ifs at h with h1 h2 h3 h4 h5 h6 <;> (cases h <;> omega)

/-- A spectral-balance band's gain is at most `0.6·maxCut` in magnitude, up
to the 0.05 quantisation margin. -/
theorem addSpectralBalanceCorrection_some_gain (existingBands : List EQBand)
    (cur tgt : List ModeResponse) (maxBands : ℕ) (maxCut schroederFreq : ℝ)
    (hC : 0 ≤ maxCut) (b : EQBand)
    (h : addSpectralBalanceCorrection existingBands cur tgt maxBands maxCut schroederFreq =
      some b) :
    |b.gain| ≤ 0.6 * maxCut + 0.05 := by
  simp only [addSpectralBalanceCorrection] at h
  split_ifs at h with h1 h2 h3 h4 h5 h6 <;> try exact Option.noConfusion h
  rw [Option.some.injEq] at h
  subst h
  rw [not_lt] at h6
  exact round10_neg_clamp maxCut _ hC (by linarith)

/-- Corrective bands never exceed the remaining budget. -/
theorem generateCorrectiveBands_length (problems : List PostEQProblem)
    (maxCorrectiveBands : ℕ) :
    (generateCorrectiveBands problems maxCorrectiveBands).length ≤ maxCorrectiveBands := by
  unfold generateCorrectiveBands
  rw [List.length_map, List.length_take]
  exact min_le_left _ _

/-- Stable ascending insertion grows the list by one element. -/
theorem insertAscBy_length {α : Type} (key : α → ℝ) (a : α) (l : List α) :
    (insertAscBy key a l).length = l.length + 1 := by
  induction l with
  | nil => rfl
  | cons b t ih =>
      unfold insertAscBy
      split_ifs
      · rfl
      · simp [ih]

/-- The ascending stable sort preserves length. -/
theorem sortAscBy_length {α : Type} (key : α → ℝ) (l : List α) :
    (sortAscBy key l).length = l.length := by
  induction l with
  | nil => rfl
  | cons a t ih =>
      unfold sortAscBy
      rw [insertAscBy_length, ih, List.length_cons]

/-- Membership is preserved by stable ascending insertion. -/
theorem mem_insertAscBy {α : Type} (key : α → ℝ) (a b : α) (l : List α) :
    b ∈ insertAscBy key a l ↔ b = a ∨ b ∈ l := by
  induction l with
  | nil => simp [insertAscBy]
  | cons c t ih =>
      unfold insertAscBy
      split_ifs
      · simp
      · simp only [List.mem_cons, ih]
        tauto

/-- The ascending stable sort is a permutation as far as membership goes. -/
theorem mem_sortAscBy {α : Type} (key : α → ℝ) (b : α) (l : List α) :
    b ∈ sortAscBy key l ↔ b ∈ l := by
  induction l with
  | nil => simp [sortAscBy]
  | cons a t ih =>
      unfold sortAscBy
      rw [mem_insertAscBy, ih, List.mem_cons]

/-- A single pass never exceeds its band budget. -/
theorem generateEQPass_length (cur tgt : List ModeResponse) (o : EQPassOptions) :
    (generateEQPass cur tgt o).length ≤ o.maxBands := by
  simp only [generateEQPass]
  split_ifs with h1
  · rcases hsp : addSpectralBalanceCorrection
        (passBandsLoop o (smartFrequencyDistribution (sortDescBy (errorSortWeight o.schroederFreq)
          ((analyzeTargetError cur tgt).errorByFrequency.filter fun e =>
            e.freq ≤ 300 ∧ getErrorThreshold o.passType o.schroederFreq e.freq < |e.error|))
          o.maxBands o.schroederFreq o.usedFrequencies o.passType))
        cur tgt o.maxBands o.maxCut o.schroederFreq with _ | b
    · exact passBandsLoop_length o _
    · have hlt := addSpectralBalanceCorrection_some_length _ _ _ _ _ _ _ hsp
      simp only [List.length_append, List.length_singleton]
      omega
  · exact passBandsLoop_length o _

/-- Every band a single pass produces respects its scaled gain limits, up to
the 0.05 quantisation margin. -/
theorem generateEQPass_gain (cur tgt : List ModeResponse) (o : EQPassOptions)
    (hB : 0 ≤ o.maxBoost) (hC : 0 ≤ o.maxCut) (b : EQBand)
    (hb : b ∈ generateEQPass cur tgt o) :
    |b.gain| ≤ max o.maxBoost o.maxCut + 0.05 := by
  simp only [generateEQPass] at hb
  split_ifs at hb with h1
  · rcases hsp : addSpectralBalanceCorrection
        (passBandsLoop o (smartFrequencyDistribution (sortDescBy (errorSortWeight o.schroederFreq)
          ((analyzeTargetError cur tgt).errorByFrequency.filter fun e =>
            e.freq ≤ 300 ∧ getErrorThreshold o.passType o.schroederFreq e.freq < |e.error|))
          o.maxBands o.schroederFreq o.usedFrequencies o.passType))
        cur tgt o.maxBands o.maxCut o.schroederFreq with _ | sb
    · rw [hsp] at hb
      exact passBandsLoop_gain o hB hC _ b hb
    · rw [hsp] at hb
      simp only [List.mem_append, List.mem_singleton] at hb
      rcases hb with hb | hb
      · exact passBandsLoop_gain o hB hC _ b hb
      · subst hb
        have := addSpectralBalanceCorrection_some_gain _ _ _ _ _ _ hC _ hsp
        have h6 : (0.6 : ℝ) * o.maxCut ≤ max o.maxBoost o.maxCut :=
          le_trans (by linarith) (le_max_right o.maxBoost o.maxCut)
        linarith
  · exact passBandsLoop_gain o hB hC _ b hb

/-- Pass 1's share of the budget never exceeds the whole budget. -/
theorem pass1MaxBands_le (o : EQGenOptions) : pass1MaxBands o ≤ o.numBands := by
  unfold pass1MaxBands
  rw [Nat.ceil_le]
  have h : (0 : ℝ) ≤ (o.numBands : ℝ) := Nat.cast_nonneg _
  linarith

/-- Pass 1 (core plus corrective bands) stays within its share. -/
theorem pass1Bands_length_le (room target : List ModeResponse) (o : EQGenOptions) :
    (pass1Bands room target o).length ≤ pass1MaxBands o := by
  unfold pass1Bands
  rw [List.length_append]
  have h1 : (pass1CoreBands room target o).length ≤ pass1MaxBands o :=
    generateEQPass_length room target (pass1Options o)
  have h2 : (pass1Corrective room target o).length ≤
      pass1MaxBands o - (pass1CoreBands room target o).length := by
    unfold pass1Corrective
    split_ifs
    · simp
    · exact generateCorrectiveBands_length _ _
  omega

/-- **C2** (amended).  The generator never returns more than `numBands`
bands; and every returned band either respects the pass-scaled gain limit
`0.95 · max(maxBoost, maxCut)` up to the 0.05 dB quantisation margin of the
0.1 dB rounding, or is one of the pass-1 post-EQ corrective bands, whose
gain is `0.95 ×` the detected overshoot severity and is *not* limited by
`maxBoost`/`maxCut`. -/
theorem generateOptimalEQ_band_budget_and_gain_bounds (room target : List ModeResponse)
    (o : EQGenOptions) (hB : 0 ≤ o.maxBoost) (hC : 0 ≤ o.maxCut) :
    (generateOptimalEQ room target o).bands.length ≤ o.numBands ∧
    ∀ b ∈ (generateOptimalEQ room target o).bands,
      b ∈ pass1Corrective room target o ∨
        |b.gain| ≤ 0.95 * max o.maxBoost o.maxCut + 0.05 := by
  have hp1 : (pass1Bands room target o).length ≤ o.numBands :=
    le_trans (pass1Bands_length_le room target o) (pass1MaxBands_le o)
  have hp2 : (pass2Bands room target o).length ≤
      o.numBands - (pass1Bands room target o).length :=
    le_trans (generateEQPass_length _ _ _) (min_le_right _ _)
  have hp3 : (pass3Bands room target o).length ≤
      o.numBands - (pass1Bands room target o).length - (pass2Bands room target o).length :=
    le_trans (generateEQPass_length _ _ _) (min_le_right _ _)
  have hp4 : (pass4Bands room target o).length ≤
      o.numBands - (pass1Bands room target o).length - (pass2Bands room target o).length -
        (pass3Bands room target o).length :=
    generateEQPass_length _ _ _
  have hmax : (0 : ℝ) ≤ max o.maxBoost o.maxCut := le_trans hB (le_max_left _ _)
  have hgain : ∀ (s : ℝ), 0 ≤ s → s ≤ 0.95 →
      ∀ (opts : EQPassOptions) (cur : List ModeResponse),
        opts.maxBoost = o.maxBoost * s → opts.maxCut = o.maxCut * s →
        ∀ b ∈ generateEQPass cur target opts,
          |b.gain| ≤ 0.95 * max o.maxBoost o.maxCut + 0.05 := by
    intro s hs hs95 opts cur hob hoc b hb
    have h1 := generateEQPass_gain cur target opts
      (by rw [hob]; exact mul_nonneg hB hs) (by rw [hoc]; exact mul_nonneg hC hs) b hb
    rw [hob, hoc, ← max_mul_of_nonneg _ _ hs] at h1
    have h2 : max o.maxBoost o.maxCut * s ≤ max o.maxBoost o.maxCut * 0.95 :=
      mul_le_mul_of_nonneg_left hs95 hmax
    linarith
  have hgainMem : ∀ b, (b ∈ pass1CoreBands room target o ∨ b ∈ pass2Bands room target o ∨
      b ∈ pass3Bands room target o ∨ b ∈ pass4Bands room target o) →
      |b.gain| ≤ 0.95 * max o.maxBoost o.maxCut + 0.05 := by
    intro b hb
    rcases hb with hb | hb | hb | hb
    · exact hgain 0.95 (by norm_num) le_rfl (pass1Options o) room rfl rfl b hb
    · exact hgain 0.9 (by norm_num) (by norm_num) _ _ rfl rfl b hb
    · exact hgain 0.8 (by norm_num) (by norm_num) _ _ rfl rfl b hb
    · exact hgain 0.7 (by norm_num) (by norm_num) _ _ rfl rfl b hb
  unfold generateOptimalEQ
  split_ifs with h1 h2 h3
  · exact ⟨by simp, by simp⟩
  · constructor
    · simp only [sortAscBy_length, List.length_append]
      omega
    · intro b hb
      simp only [mem_sortAscBy, List.mem_append] at hb
      rcases hb with ((hb | hb) | hb) | hb
      · unfold pass1Bands at hb
        rw [List.mem_append] at hb
        rcases hb with hb | hb
        · exact Or.inr (hgainMem b (Or.inl hb))
        · exact Or.inl hb
      · exact Or.inr (hgainMem b (Or.inr (Or.inl hb)))
      · exact Or.inr (hgainMem b (Or.inr (Or.inr (Or.inl hb))))
      · exact Or.inr (hgainMem b (Or.inr (Or.inr (Or.inr hb))))
  · constructor
    · simp only [sortAscBy_length, List.length_append]
      omega
    · intro b hb
      simp only [mem_sortAscBy, List.mem_append] at hb
      rcases hb with (hb | hb) | hb
      · unfold pass1Bands at hb
        rw [List.mem_append] at hb
        rcases hb with hb | hb
        · exact Or.inr (hgainMem b (Or.inl hb))
        · exact Or.inl hb
      · exact Or.inr (hgainMem b (Or.inr (Or.inl hb)))
      · exact Or.inr (hgainMem b (Or.inr (Or.inr (Or.inl hb))))
  · constructor
    · simp only [sortAscBy_length, List.length_append]
      omega
    · intro b hb
      simp only [mem_sortAscBy, List.mem_append] at hb
      rcases hb with hb | hb
      · unfold pass1Bands at hb
        rw [List.mem_append] at hb
        rcases hb with hb | hb
        · exact Or.inr (hgainMem b (Or.inl hb))
        · exact Or.inl hb
      · exact Or.inr (hgainMem b (Or.inr (Or.inl hb)))

/-- Witness for `generateOptimalEQ_band_budget_and_gain_bounds` at the empty
input with default options. -/
theorem generateOptimalEQ_band_budget_witness :
    ((0 : ℝ) ≤ (({} : EQGenOptions)).maxBoost ∧ (0 : ℝ) ≤ (({} : EQGenOptions)).maxCut) ∧
    (generateOptimalEQ [] [] {}).bands.length ≤ ({} : EQGenOptions).numBands ∧
    ∀ b ∈ (generateOptimalEQ [] [] {}).bands,
      b ∈ pass1Corrective [] [] {} ∨
        |b.gain| ≤ 0.95 * max ({} : EQGenOptions).maxBoost ({} : EQGenOptions).maxCut + 0.05 :=
  ⟨⟨by norm_num, by norm_num⟩,
    generateOptimalEQ_band_budget_and_gain_bounds [] [] {} (by norm_num) (by norm_num)⟩

/-! ## The concrete counterexample run of the EQ generator -/

/-- A one-point response matched against a one-point target at the same
frequency. -/
theorem matchedPairs_single (f c t : ℝ) :
    matchedPairs [⟨f, c⟩] [⟨f, t⟩] = [(⟨f, c⟩, ⟨f, t⟩)] := by
  unfold matchedPairs
  rw [List.filterMap_cons, List.filterMap_nil,
    List.find?_cons_of_pos _ (by simp)]
  rfl

/-- Error analysis of a one-point response against a one-point target. -/
theorem analyzeTargetError_single (f c t : ℝ) :
    (analyzeTargetError [⟨f, c⟩] [⟨f, t⟩]).errorByFrequency = [⟨f, c - t, c, t⟩] := by
  rw [analyzeTargetError_eq, matchedPairs_single]
  rfl

/-- Sorting a single error point is the identity. -/
theorem sortDescBy_single {α : Type} (key : α → ℝ) (a : α) :
    sortDescBy key [a] = [a] := by
  simp [sortDescBy, insertDescBy]

/-- A zone contributes nothing when its candidate filter is empty. -/
theorem zoneDistribute_of_filter_nil (pt : PassType) (maxBands : ℕ) (used : List ℝ)
    (errors distributed : List ErrorPoint) (zone : FreqZone)
    (h : (errors.filter fun e =>
        zone.lo ≤ e.freq ∧ e.freq ≤ zone.hi ∧ ¬∃ d ∈ distributed, |d.freq - e.freq| < 1) =
      []) :
    zoneDistribute pt maxBands used errors distributed zone = distributed := by
  simp only [zoneDistribute]
  rw [h]
  rfl

/-- A zone with a single candidate that sits too close to an already-used
frequency contributes nothing. -/
theorem zoneDistribute_single_skip (pt : PassType) (maxBands : ℕ) (used : List ℝ)
    (errors : List ErrorPoint) (e : ErrorPoint) (zone : FreqZone)
    (hfil : (errors.filter fun x =>
        zone.lo ≤ x.freq ∧ x.freq ≤ zone.hi ∧
          ¬∃ d ∈ ([] : List ErrorPoint), |d.freq - x.freq| < 1) = [e])
    (hclose : tooClose pt used [] e) :
    zoneDistribute pt maxBands used errors [] zone = [] := by
  simp only [zoneDistribute]
  rw [hfil, List.foldl_cons, List.foldl_nil]
  split_ifs with h1
  · rfl
  · rfl

/-- With a small band budget, a single 60 Hz error point that clashes with an
already-used frequency is distributed nowhere. -/
theorem c2_smartFrequencyDistribution_skip (maxBands : ℕ) (hmb : maxBands ≤ 12)
    (pt : PassType) (used : List ℝ) (e : ErrorPoint) (hfreq : e.freq = 60)
    (herr : 2.5 < |e.error|) (hclose : tooClose pt used [] e) :
    smartFrequencyDistribution [e] maxBands 200 used pt = [] := by
  simp only [smartFrequencyDistribution]
  rw [if_neg (by simp)]
  rw [List.filter_cons_of_pos (by
    simp only [decide_eq_true_eq, hfreq]
    exact ⟨by norm_num, herr⟩), List.filter_nil]
  have hprio : priorityDistribute pt maxBands used [e] = [] := by
    simp only [priorityDistribute]
    rw [List.foldl_cons, List.foldl_nil]
    split_ifs with h1
    · rfl
    · rfl
  rw [hprio]
  simp only [distributionZones]
  rw [if_pos hmb]
  rw [List.foldl_cons, List.foldl_cons, List.foldl_cons, List.foldl_cons, List.foldl_cons,
    List.foldl_nil]
  have hz1 : zoneDistribute pt maxBands used [e] []
      ⟨20, 50, ⌈(maxBands : ℝ) * 0.25⌉₊⟩ = [] :=
    zoneDistribute_of_filter_nil _ _ _ _ _ _ (by
      rw [List.filter_cons_of_neg (by
        simp only [decide_eq_false_iff_not, decide_eq_true_eq, hfreq]
        norm_num), List.filter_nil])
  have hz2 : zoneDistribute pt maxBands used [e] []
      ⟨50, 100, ⌈(maxBands : ℝ) * 0.30⌉₊⟩ = [] :=
    zoneDistribute_single_skip pt maxBands used [e] e _ (by
      rw [List.filter_cons_of_pos (by
        simp only [decide_eq_true_eq, hfreq]
        refine ⟨by norm_num, by norm_num, by simp⟩), List.filter_nil]) hclose
  have hz3 : zoneDistribute pt maxBands used [e] []
      ⟨100, 180, ⌈(maxBands : ℝ) * 0.25⌉₊⟩ = [] :=
    zoneDistribute_of_filter_nil _ _ _ _ _ _ (by
      rw [List.filter_cons_of_neg (by
        simp only [decide_eq_false_iff_not, decide_eq_true_eq, hfreq]
        norm_num), List.filter_nil])
  have hz4 : zoneDistribute pt maxBands used [e] []
      ⟨180, 200, ⌈(maxBands : ℝ) * 0.12⌉₊⟩ = [] :=
    zoneDistribute_of_filter_nil _ _ _ _ _ _ (by
      rw [List.filter_cons_of_neg (by
        simp only [decide_eq_false_iff_not, decide_eq_true_eq, hfreq]
        norm_num), List.filter_nil])
  have hz5 : zoneDistribute pt maxBands used [e] []
      ⟨200, 300, ⌈(maxBands : ℝ) * 0.08⌉₊⟩ = [] :=
    zoneDistribute_of_filter_nil _ _ _ _ _ _ (by
      rw [List.filter_cons_of_neg (by
        simp only [decide_eq_false_iff_not, decide_eq_true_eq, hfreq]
        norm_num), List.filter_nil])
  rw [hz1, hz2, hz3, hz4, hz5]

/-- The minimum spacing at 60 Hz is positive for every pass type. -/
theorem getMinSpacing_pos_at60 (pt : PassType) : 0 < getMinSpacing pt 60 := by
  cases pt <;> norm_num [getMinSpacing]

/-- With a 200 Hz Schroeder frequency the significance threshold at 60 Hz is
at most 0.5 dB for every pass type. -/
theorem getErrorThreshold_le_at60 (pt : PassType) : getErrorThreshold pt 200 60 ≤ 0.5 := by
  cases pt <;> norm_num [getErrorThreshold]

/-- A pass whose single 60 Hz error point clashes with an already-used
frequency produces no bands: the error survives the significance filter but
is distributed nowhere, and the spectral-balance band needs an existing cut
band. -/
theorem c2_generateEQPass_skip (o : EQPassOptions) (c t : ℝ) (hmb : o.maxBands ≤ 12)
    (hsf : o.schroederFreq = 200) (herr : 2.5 < |c - t|)
    (hused : (60 : ℝ) ∈ o.usedFrequencies) :
    generateEQPass [⟨60, c⟩] [⟨60, t⟩] o = [] := by
  have hclose : tooClose o.passType o.usedFrequencies [] (⟨60, c - t, c, t⟩ : ErrorPoint) := by
    simp only [tooClose]
    refine Or.inl ⟨60, hused, ?_⟩
    rw [show |(60 : ℝ) - (60 : ℝ)| = 0 by norm_num]
    exact getMinSpacing_pos_at60 o.passType
  simp only [generateEQPass]
  rw [analyzeTargetError_single]
  rw [List.filter_cons_of_pos (by
    simp only [decide_eq_true_eq]
    refine ⟨by norm_num, ?_⟩
    have h05 : getErrorThreshold o.passType o.schroederFreq 60 ≤ 0.5 := by
      rw [hsf]
      exact getErrorThreshold_le_at60 o.passType
    linarith), List.filter_nil]
  rw [sortDescBy_single, hsf]
  rw [c2_smartFrequencyDistribution_skip o.maxBands hmb o.passType o.usedFrequencies
    ⟨60, c - t, c, t⟩ rfl herr hclose]
  simp only [passBandsLoop, List.foldl_nil]
  have hspec : addSpectralBalanceCorrection [] [(⟨60, c⟩ : ModeResponse)]
      [(⟨60, t⟩ : ModeResponse)] o.maxBands o.maxCut 200 = none := by
    simp only [addSpectralBalanceCorrection, List.filter_nil]
    split_ifs <;> first | rfl | (exact absurd rfl (by assumption))
  split_ifs with hb
  · rw [hspec]
  · rfl

/-- Room response of the gain-quantisation counterexample run: one −12 dB
dip at 60 Hz. -/
def c2room : List ModeResponse := [⟨60, -12⟩]

/-- Target of the counterexample run: flat 0 dB at 60 Hz. -/
def c2target : List ModeResponse := [⟨60, 0⟩]

/-- Options of the counterexample run: 10 bands, symmetric 1 dB gain limits,
no smoothing. -/
def c2opts : EQGenOptions := ⟨10, 1, 1, 0, 0.7, 10, 200⟩

/-- The single error point the analyzer produces for the run. -/
def c2err : ErrorPoint := ⟨60, -12, -12, 0⟩

/-- The single band the run returns; its 1.0 dB gain is the 0.1 dB rounding
of the clamped 0.95 dB. -/
def c2band : EQBand := ⟨60, 1, 1.3, FilterType.peak⟩

/-- Pass-1 budget of the run: three bands. -/
theorem c2_pass1MaxBands : pass1MaxBands c2opts = 3 := by
  simp only [pass1MaxBands, c2opts]
  rw [Nat.ceil_eq_iff (by norm_num)]
  norm_num

/-- Resolved pass-1 options of the run. -/
theorem c2_pass1Options :
    pass1Options c2opts = ⟨3, PassType.broad, 0.95, 0.95, 0.7, 6, 0, 200, []⟩ := by
  simp only [pass1Options, c2_pass1MaxBands]
  simp only [c2opts]
  norm_num [EQPassOptions.mk.injEq, min_def]

/-- The error analysis of the run. -/
theorem c2_errors : (analyzeTargetError c2room c2target).errorByFrequency = [c2err] := by
  simp only [c2room, c2target]
  rw [analyzeTargetError_single]
  norm_num [c2err]

/-- In the first pass nothing is used yet, so the single 60 Hz error point is
claimed by the priority loop and no zone adds to it. -/
theorem c2_smartFrequencyDistribution_pass1 :
    smartFrequencyDistribution [c2err] 3 200 [] PassType.broad = [c2err] := by
  simp only [smartFrequencyDistribution]
  rw [if_neg (by simp)]
  rw [List.filter_cons_of_pos (by
    simp only [decide_eq_true_eq, c2err]
    refine ⟨by norm_num, ?_⟩
    rw [abs_of_nonpos (by norm_num)]
    norm_num), List.filter_nil]
  have hprio : priorityDistribute PassType.broad 3 [] [c2err] = [c2err] := by
    simp only [priorityDistribute]
    rw [List.foldl_cons, List.foldl_nil]
    rw [if_neg (by norm_num), if_neg (by simp [tooClose])]
    rfl
  rw [hprio]
  simp only [distributionZones]
  rw [if_pos (by norm_num)]
  rw [List.foldl_cons, List.foldl_cons, List.foldl_cons, List.foldl_cons, List.foldl_cons,
    List.foldl_nil]
  have hz1 : zoneDistribute PassType.broad 3 [] [c2err] [c2err]
      ⟨20, 50, ⌈((3 : ℕ) : ℝ) * 0.25⌉₊⟩ = [c2err] :=
    zoneDistribute_of_filter_nil _ _ _ _ _ _ (by
      rw [List.filter_cons_of_neg (by
        simp only [decide_eq_false_iff_not, c2err]
        norm_num), List.filter_nil])
  have hz2 : zoneDistribute PassType.broad 3 [] [c2err] [c2err]
      ⟨50, 100, ⌈((3 : ℕ) : ℝ) * 0.30⌉₊⟩ = [c2err] :=
    zoneDistribute_of_filter_nil _ _ _ _ _ _ (by
      rw [List.filter_cons_of_neg (by
        simp only [decide_eq_false_iff_not, c2err]
        norm_num), List.filter_nil])
  have hz3 : zoneDistribute PassType.broad 3 [] [c2err] [c2err]
      ⟨100, 180, ⌈((3 : ℕ) : ℝ) * 0.25⌉₊⟩ = [c2err] :=
    zoneDistribute_of_filter_nil _ _ _ _ _ _ (by
      rw [List.filter_cons_of_neg (by
        simp only [decide_eq_false_iff_not, c2err]
        norm_num), List.filter_nil])
  have hz4 : zoneDistribute PassType.broad 3 [] [c2err] [c2err]
      ⟨180, 200, ⌈((3 : ℕ) : ℝ) * 0.12⌉₊⟩ = [c2err] :=
    zoneDistribute_of_filter_nil _ _ _ _ _ _ (by
      rw [List.filter_cons_of_neg (by
        simp only [decide_eq_false_iff_not, c2err]
        norm_num), List.filter_nil])
  have hz5 : zoneDistribute PassType.broad 3 [] [c2err] [c2err]
      ⟨200, 300, ⌈((3 : ℕ) : ℝ) * 0.08⌉₊⟩ = [c2err] :=
    zoneDistribute_of_filter_nil _ _ _ _ _ _ (by
      rw [List.filter_cons_of_neg (by
        simp only [decide_eq_false_iff_not, c2err]
        norm_num), List.filter_nil])
  rw [hz1, hz2, hz3, hz4, hz5]

/-- The pass Q of the run: broad pass at 60 Hz with a 12 dB error and a
three-band budget. -/
theorem c2_passQ : calculatePassQ 60 12 PassType.broad 0.7 6 3 = 1.344 := by
  norm_num [calculatePassQ, min_def, max_def]

/-- The single loop step of the run builds exactly the rounded band: the
required gain 12.54 dB is clamped to `maxBoost = 0.95` and then rounded up
to 1.0 dB. -/
theorem c2_passBandStep :
    passBandStep ⟨3, PassType.broad, 0.95, 0.95, 0.7, 6, 0, 200, []⟩ [] c2err = [c2band] := by
  simp only [passBandStep, c2err, List.length_nil, passScalingFactor, frequencyScalingFactor]
  rw [if_neg (by norm_num)]
  rw [show |(-12 : ℝ)| = 12 from by
    rw [abs_of_nonpos (by norm_num)]
    norm_num]
  rw [c2_passQ]
  norm_num [round10, jsRound, min_def, max_def, abs_of_nonneg, c2band]

/-- The band loop of the run over its single distributed error. -/
theorem c2_passBandsLoop :
    passBandsLoop ⟨3, PassType.broad, 0.95, 0.95, 0.7, 6, 0, 200, []⟩ [c2err] = [c2band] := by
  simp only [passBandsLoop, List.foldl_cons, List.foldl_nil]
  exact c2_passBandStep

/-- No spectral-balance band is added in the run: the single band is a boost,
so there are no low-frequency cuts. -/
theorem c2_spectral :
    addSpectralBalanceCorrection [c2band] c2room c2target 3 0.95 200 = none := by
  simp only [addSpectralBalanceCorrection]
  rw [if_neg (by simp)]
  rw [List.filter_cons_of_neg (by norm_num [c2band, decide_eq_false_iff_not]), List.filter_nil]
  rw [if_pos rfl]

/-- Pass 1 of the run produces exactly the rounded 1.0 dB band. -/
theorem c2_pass1CoreBands : pass1CoreBands c2room c2target c2opts = [c2band] := by
  rw [pass1CoreBands, c2_pass1Options]
  simp only [generateEQPass]
  rw [c2_errors]
  rw [List.filter_cons_of_pos (by
    simp only [decide_eq_true_eq, c2err]
    refine ⟨by norm_num, ?_⟩
    rw [abs_of_nonpos (by norm_num)]
    norm_num [getErrorThreshold]), List.filter_nil, sortDescBy_single]
  rw [c2_smartFrequencyDistribution_pass1]
  rw [c2_passBandsLoop]
  have hc : True ∧ (3 : ℕ) ≤ 12 := ⟨trivial, by norm_num⟩
  rw [if_pos hc, c2_spectral]

/-- The response after pass 1: the 1.0 dB boost lifts the −12 dB point to
−11 dB. -/
theorem c2_responseAfterPass1 :
    responseAfterPass1 c2room c2target c2opts = [⟨60, -11⟩] := by
  rw [responseAfterPass1, c2_pass1CoreBands]
  simp only [applyEQToResponse]
  rw [if_neg (by simp)]
  simp only [c2room, c2band, List.map_cons, List.map_nil, List.sum_cons, List.sum_nil]
  rw [calculateBandResponse_center_exact 60 1 1.3 (by norm_num) (by norm_num)
    (by norm_num [abs_one]) (by norm_num) (by norm_num)]
  norm_num [min_def, max_def]

/-- One boost band is not enough for any post-EQ problem report. -/
theorem c2_pass1Problems : pass1Problems c2room c2target c2opts = [] := by
  rw [pass1Problems, c2_pass1CoreBands]
  simp only [analyzePostEQProblems]
  rw [List.filter_cons_of_pos (by norm_num [c2band, decide_eq_true_eq]), List.filter_nil]
  rw [if_pos (by norm_num)]

/-- No corrective bands are appended in the run. -/
theorem c2_pass1Corrective : pass1Corrective c2room c2target c2opts = [] := by
  rw [pass1Corrective, c2_pass1Problems]
  rw [if_pos rfl]

/-- All pass-1 bands of the run. -/
theorem c2_pass1Bands : pass1Bands c2room c2target c2opts = [c2band] := by
  rw [pass1Bands, c2_pass1CoreBands, c2_pass1Corrective]
  simp

/-- Budget left for pass 2. -/
theorem c2_pass2ActualBands : pass2ActualBands c2room c2target c2opts = 3 := by
  rw [pass2ActualBands, c2_pass1Bands]
  simp only [c2opts, List.length_singleton]
  have h3 : ⌈((10 : ℕ) : ℝ) * 0.3⌉₊ = 3 := by
    rw [Nat.ceil_eq_iff (by norm_num)]
    norm_num
  rw [h3]
  decide

/-- Pass 2 produces nothing: its only candidate sits on the used 60 Hz. -/
theorem c2_pass2Bands : pass2Bands c2room c2target c2opts = [] := by
  rw [pass2Bands, c2_responseAfterPass1]
  refine c2_generateEQPass_skip _ (-11) 0 ?_ rfl ?_ ?_
  · show pass2ActualBands c2room c2target c2opts ≤ 12
    rw [c2_pass2ActualBands]
    norm_num
  · rw [show ((-11 : ℝ) - (0 : ℝ)) = -11 by norm_num]
    rw [abs_of_nonpos (by norm_num)]
    norm_num
  · show (60 : ℝ) ∈ (pass1Bands c2room c2target c2opts).map (·.frequency)
    rw [c2_pass1Bands]
    simp [c2band]

/-- The cumulative response after pass 2 is unchanged from pass 1. -/
theorem c2_responseAfterPass2 :
    responseAfterPass2 c2room c2target c2opts = [⟨60, -11⟩] := by
  rw [responseAfterPass2, c2_pass1Bands, c2_pass2Bands, List.append_nil]
  have h : applyEQToResponse c2room
      ⟨[c2band], true, c2opts.maxBoost, c2opts.maxCut, c2opts.smoothing⟩ =
      responseAfterPass1 c2room c2target c2opts := by
    rw [responseAfterPass1, c2_pass1CoreBands]
  rw [h, c2_responseAfterPass1]

/-- Budget left for pass 3: positive, so the pass runs. -/
theorem c2_pass3ActualBands : pass3ActualBands c2room c2target c2opts = 3 := by
  rw [pass3ActualBands, c2_pass1Bands, c2_pass2Bands]
  simp only [c2opts, List.length_singleton, List.length_nil]
  have h3 : ⌈((10 : ℕ) : ℝ) * 0.25⌉₊ = 3 := by
    rw [Nat.ceil_eq_iff (by norm_num)]
    norm_num
  rw [h3]
  decide

/-- Pass 3 produces nothing for the same spacing reason. -/
theorem c2_pass3Bands : pass3Bands c2room c2target c2opts = [] := by
  rw [pass3Bands, c2_responseAfterPass2]
  refine c2_generateEQPass_skip _ (-11) 0 ?_ rfl ?_ ?_
  · show pass3ActualBands c2room c2target c2opts ≤ 12
    rw [c2_pass3ActualBands]
    norm_num
  · rw [show ((-11 : ℝ) - (0 : ℝ)) = -11 by norm_num]
    rw [abs_of_nonpos (by norm_num)]
    norm_num
  · show (60 : ℝ) ∈ ((pass1Bands c2room c2target c2opts ++
      pass2Bands c2room c2target c2opts).map (·.frequency))
    rw [c2_pass1Bands, c2_pass2Bands]
    simp [c2band]

/-- The cumulative response after pass 3 is still unchanged. -/
theorem c2_responseAfterPass3 :
    responseAfterPass3 c2room c2target c2opts = [⟨60, -11⟩] := by
  rw [responseAfterPass3, c2_pass1Bands, c2_pass2Bands, c2_pass3Bands, List.append_nil,
    List.append_nil]
  have h : applyEQToResponse c2room
      ⟨[c2band], true, c2opts.maxBoost, c2opts.maxCut, c2opts.smoothing⟩ =
      responseAfterPass1 c2room c2target c2opts := by
    rw [responseAfterPass1, c2_pass1CoreBands]
  rw [h, c2_responseAfterPass1]

/-- Nine bands remain after pass 3, so pass 4 runs as well. -/
theorem c2_remainingAfterPass3 : remainingAfterPass3 c2room c2target c2opts = 9 := by
  rw [remainingAfterPass3, c2_pass1Bands, c2_pass2Bands, c2_pass3Bands]
  simp [c2opts]

/-- Pass 4 produces nothing for the same spacing reason. -/
theorem c2_pass4Bands : pass4Bands c2room c2target c2opts = [] := by
  rw [pass4Bands, c2_responseAfterPass3]
  refine c2_generateEQPass_skip _ (-11) 0 ?_ rfl ?_ ?_
  · show remainingAfterPass3 c2room c2target c2opts ≤ 12
    rw [c2_remainingAfterPass3]
    norm_num
  · rw [show ((-11 : ℝ) - (0 : ℝ)) = -11 by norm_num]
    rw [abs_of_nonpos (by norm_num)]
    norm_num
  · show (60 : ℝ) ∈ ((pass1Bands c2room c2target c2opts ++ pass2Bands c2room c2target c2opts ++
      pass3Bands c2room c2target c2opts).map (·.frequency))
    rw [c2_pass1Bands, c2_pass2Bands, c2_pass3Bands]
    simp [c2band]

/-- Counterexample to the claimed 0.95-scaled gain bound of C2: a single
−12 dB error at 60 Hz with `maxBoost = maxCut = 1` and no smoothing.  Pass 1
clamps the required gain to `maxBoost * 0.95 = 0.95` dB, but the final
0.1 dB quantisation `Math.round(gain * 10) / 10` rounds 0.95 up to 1.0 dB,
so the returned band's gain exceeds `0.95 * max(maxBoost, maxCut)`. -/
theorem generateOptimalEQ_gain_quantisation_counterexample :
    generateOptimalEQ c2room c2target c2opts =
      ⟨[⟨60, 1, 1.3, FilterType.peak⟩], true, 1, 1, 0⟩ ∧
    0.95 * max c2opts.maxBoost c2opts.maxCut < |(1 : ℝ)| := by
  constructor
  · simp only [generateOptimalEQ]
    rw [if_neg (by simp [c2room, c2target])]
    rw [if_pos (by rw [c2_pass3ActualBands]; norm_num)]
    rw [if_pos (by rw [c2_remainingAfterPass3]; norm_num)]
    rw [c2_pass1Bands, c2_pass2Bands, c2_pass3Bands, c2_pass4Bands]
    simp only [List.append_nil]
    rw [show sortAscBy (·.frequency) [c2band] = [c2band] from by
      simp [sortAscBy, insertAscBy]]
    simp [c2opts, c2band]
  · simp only [c2opts]
    norm_num [abs_one, max_self]
